import Mathlib

/-!
Shallow embedding of the AXIS Engine Single Time Axis core
(`AXIS_time`: slot pipeline, conflict resolver, termination policy,
anchor store and reconstruction), translated from the C++ sources, with
theorems checking the natural-language specification against it.

Machine integers are modelled as `Nat` with explicit reduction modulo
`2^64` (or `2^32`) at the operations where the C++ code can overflow.
Unordered containers (`std::unordered_map`) are modelled as association
lists in first-insertion order, a canonical choice for their unspecified
iteration order; results that the code sorts before using do not depend
on that choice.
-/

namespace AxisTime

/-- Modulus of unsigned 64-bit arithmetic. -/
def U64 : Nat := 2 ^ 64

/-- Modulus of unsigned 32-bit arithmetic. -/
def U32 : Nat := 2 ^ 32

-- =============================================================================
-- Core types (axis_time_slot_types.h)
-- =============================================================================

abbrev AxisSlotIndex := Nat

abbrev AxisRequestId := Nat

abbrev AxisConflictGroupId := Nat

/-- State key: pair of 64-bit identifiers (`AxisStateKey`). -/
structure AxisStateKey where
  primary : Nat
  secondary : Nat
deriving DecidableEq

/-- Mutation kinds of `AxisMutationType`. -/
inductive AxisMutationType where
  | set
  | add
  | multiply
  | delete
  | custom
deriving DecidableEq

/-- Conflict policies of `AxisConflictPolicy`. -/
inductive AxisConflictPolicy where
  | priority
  | lastWriter
  | firstWriter
  | custom
deriving DecidableEq

/-- Result codes of `AxisTimeResult`. -/
inductive AxisTimeResultE where
  | ok
  | errInvalidParameter
  | errOutOfMemory
  | errNotInitialized
  | errAlreadyInitialized
  | errSlotInPast
  | errConflictGroupFull
  | errRequestQueueFull
  | errAnchorNotFound
  | errReconstructionFailed
  | errInvalidPolicy
  | errThreadPoolFailed
  | errNotFound
  | errPolicyMismatch
  | errPolicyLocked
  | errTerminated
deriving DecidableEq

/-- Termination reasons of `AxisTerminationReason`. -/
inductive AxisTerminationReason where
  | terminationNone
  | safetyCap
  | stepLimit
  | requestDrain
  | groupResolution
  | externalSignal
  | customCallback
deriving DecidableEq

/-- Axis lifecycle states (`AxisLifecycle`): `ACTIVE` or `TERMINATED`. -/
inductive AxisLifecycle where
  | active
  | terminated
deriving DecidableEq

/-- State change descriptor (`AxisStateChangeDesc`); `value` is the 64-bit
payload `value.as_uint`. -/
structure AxisStateChangeDesc where
  target_slot : AxisSlotIndex
  conflict_group : AxisConflictGroupId
  priority : Int
  key : AxisStateKey
  mutation_type : AxisMutationType
  value : Nat
deriving DecidableEq

/-- Termination evaluation context (`AxisSlotTerminationContext`).
`causality_summary` is a pointer that the current code always leaves null;
it is modelled as `Option Unit`. -/
structure AxisSlotTerminationContext where
  elapsed_steps : Nat
  pending_requests : Nat
  resolved_groups : Nat
  total_groups : Nat
  external_flags : Nat
  causality_summary : Option Unit
deriving DecidableEq

/-- Custom termination callback: C signature
`int (*)(const AxisSlotTerminationContext*, void*)`; the `user_data`
pointer is captured in the closure. -/
abbrev AxisSlotTerminationCallback := AxisSlotTerminationContext → Int

/-- Termination configuration (`AxisTerminationConfig`). The two C `int`
flags are modelled as `Nat` (their non-negative values); the callback
pointer is `none` when null. -/
structure AxisTerminationConfig where
  step_limit : Nat
  safety_cap : Nat
  terminate_on_request_drain : Nat
  terminate_on_group_resolution : Nat
  required_external_flags : Nat
  custom_callback : Option AxisSlotTerminationCallback

/-- Well-formedness of a termination config: field values fit the widths
of the C fields (`uint32_t` scalars, non-negative `int` flags). -/
def AxisTerminationConfig.WF (c : AxisTerminationConfig) : Prop :=
  c.step_limit < U32 ∧ c.safety_cap < U32 ∧
  c.terminate_on_request_drain < 2 ^ 31 ∧
  c.terminate_on_group_resolution < 2 ^ 31 ∧
  c.required_external_flags < U32

/-- Default termination config (`AxisTermination_DefaultConfig`). -/
def AxisTermination_DefaultConfig : AxisTerminationConfig where
  step_limit := 0
  safety_cap := 10000
  terminate_on_request_drain := 0
  terminate_on_group_resolution := 0
  required_external_flags := 0
  custom_callback := none

-- =============================================================================
-- Hash primitives
-- =============================================================================

/-- Key hash (`MakeStateKeyHash`):
`primary XOR (secondary * 0x9e3779b97f4a7c15)` in 64-bit arithmetic. -/
def MakeStateKeyHash (k : AxisStateKey) : Nat :=
  (k.primary ^^^ (k.secondary * 0x9e3779b97f4a7c15) % U64) % U64

/-- One FNV-1a-style fold step: `hash ^= x; hash *= 0x100000001b3` in
64-bit arithmetic. -/
def fnvFold (h x : Nat) : Nat :=
  ((h ^^^ x) % U64) * 0x100000001b3 % U64

/-- Change hash (`ComputeChangesHash`): FNV-1a-style fold over
`(key hash, value)` pairs seeded with `0x517cc1b727220a95`. -/
def ComputeChangesHash (changes : List (AxisStateKey × Nat)) : Nat :=
  changes.foldl (fun h c => fnvFold (fnvFold h (MakeStateKeyHash c.1)) c.2)
    0x517cc1b727220a95

/-- Policy hash (`BuiltinTerminationPolicy::GetPolicyHash`): folds the
scalar config fields with FNV steps from seed `0x9e3779b97f4a7c15`, then
XORs in a sentinel when the custom callback pointer is non-null. -/
def GetPolicyHash (c : AxisTerminationConfig) : Nat :=
  let h := 0x9e3779b97f4a7c15
  let h := fnvFold h c.step_limit
  let h := fnvFold h c.safety_cap
  let h := fnvFold h c.terminate_on_request_drain
  let h := fnvFold h c.terminate_on_group_resolution
  let h := fnvFold h c.required_external_flags
  if c.custom_callback.isSome then h ^^^ 0xDEADBEEFCAFEBABE else h

/-- One byte-input step of the 128-bit FNV-1a variant (`FNV128`): each
half absorbs the byte, multiplies by the FNV prime, then the halves are
cross-mixed with 32-bit shifts. -/
def fnv128Step (h : Nat × Nat) (b : Nat) : Nat × Nat :=
  let h0 := ((h.1 ^^^ b) % U64) * 0x100000001b3 % U64
  let h1 := ((h.2 ^^^ b) % U64) * 0x100000001b3 % U64
  let h0 := h0 ^^^ (h1 >>> 32)
  let h1 := h1 ^^^ (h0 >>> 32)
  (h0, h1)

/-- 128-bit FNV-1a variant over a byte stream (`FNV128`), result as the
two 64-bit halves `(h0, h1)`. -/
def FNV128 (bytes : List Nat) : Nat × Nat :=
  bytes.foldl fnv128Step (0x6c62272e07bb0142, 0x62b821756295c58d)

/-- Little-endian serialization of a 64-bit word to 8 bytes, as the C++
code obtains by copying the in-memory representation. -/
def le8 (x : Nat) : List Nat :=
  [x % 256, x / 2 ^ 8 % 256, x / 2 ^ 16 % 256, x / 2 ^ 24 % 256,
   x / 2 ^ 32 % 256, x / 2 ^ 40 % 256, x / 2 ^ 48 % 256, x / 2 ^ 56 % 256]

/-- Little-endian serialization of a 32-bit word to 4 bytes. -/
def le4 (x : Nat) : List Nat :=
  [x % 256, x / 2 ^ 8 % 256, x / 2 ^ 16 % 256, x / 2 ^ 24 % 256]

-- =============================================================================
-- Requests, groups, transitions, anchors (slot_internal.h)
-- =============================================================================

/-- Custom conflict policy callback
(`AxisCustomPolicyFn`): receives the group id and the conflicting
descriptors, produces `some winner_index` on status 0 and `none` on a
non-zero status. The `user_data` pointer is captured in the closure. -/
abbrev AxisCustomPolicyFn := AxisConflictGroupId → List AxisStateChangeDesc → Option Nat

/-- Internal pending request record (`PendingRequest`). -/
structure PendingRequest where
  id : AxisRequestId
  desc : AxisStateChangeDesc
  cancelled : Bool
deriving DecidableEq

/-- Internal conflict group record (`ConflictGroupData`). -/
structure ConflictGroupData where
  id : AxisConflictGroupId
  policy : AxisConflictPolicy
  custom_fn : Option AxisCustomPolicyFn
  active : Bool

/-- Slot transition record (`SlotTransition`). -/
structure SlotTransition where
  slot_index : AxisSlotIndex
  requests : List PendingRequest
  resolved_changes : List (AxisStateKey × Nat)
  resolution_hash : Nat
deriving DecidableEq

/-- Working state / snapshot: association list from 64-bit internal key
hash to 64-bit value, modelling `std::unordered_map<uint64_t, AxisStateValue>`
in first-insertion order. -/
abbrev StateMap := List (Nat × Nat)

/-- Map update, modelling `map[key] = value`. -/
def setKey (m : StateMap) (k v : Nat) : StateMap :=
  if m.any (fun p => p.1 = k) then
    m.map (fun p => if p.1 = k then (k, v) else p)
  else
    m ++ [(k, v)]

/-- Map lookup, modelling `map.find(key)`. -/
def lookupKey (m : StateMap) (k : Nat) : Option Nat :=
  (m.find? (fun p => p.1 = k)).map (fun p => p.2)

/-- Anchor record (`AnchorData`). -/
structure AnchorData where
  anchor_id : Nat
  slot_index : AxisSlotIndex
  state_snapshot : StateMap
  transition_log : List PendingRequest
  transition_hash : Nat × Nat
  resolution_hash : Nat × Nat
  termination_policy_hash : Nat
deriving DecidableEq

/-- Per-group resolution output (`GroupResolutionResult`). -/
structure GroupResolutionResult where
  group_id : AxisConflictGroupId
  resolved_changes : List (AxisStateKey × Nat)
  change_hash : Nat
deriving DecidableEq

/-- Structured reconstruction key (`AxisReconstructionKey`). -/
structure AxisReconstructionKey where
  anchor_id : Nat
  target_slot : AxisSlotIndex
  transition_hash : Nat × Nat
  policy_hash : Nat × Nat
deriving DecidableEq

/-- Byte serialization of one `SlotTransition` as pushed into the buffer
by `ComputeTransitionHash`: slot index, 64-bit resolution hash, then each
resolved change as the 16-byte key struct followed by the 8-byte value. -/
def serializeTransition (t : SlotTransition) : List Nat :=
  le8 t.slot_index ++ le8 t.resolution_hash ++
    t.resolved_changes.flatMap (fun c => le8 c.1.primary ++ le8 c.1.secondary ++ le8 c.2)

/-- 128-bit transition hash (`ComputeTransitionHash`); the zero hash for
an empty buffer. -/
def ComputeTransitionHash (transitions : List SlotTransition) : Nat × Nat :=
  let buffer := transitions.flatMap serializeTransition
  if buffer.isEmpty then (0, 0) else FNV128 buffer

/-- 128-bit resolution-decision hash over group results
(`ComputePolicyHash`): 4-byte group id then 8-byte change hash per
result; the zero hash for an empty buffer. -/
def ComputeResolutionPolicyHash (results : List GroupResolutionResult) : Nat × Nat :=
  let buffer := results.flatMap (fun r => le4 r.group_id ++ le8 r.change_hash)
  if buffer.isEmpty then (0, 0) else FNV128 buffer

-- =============================================================================
-- Conflict resolver (conflict_resolver.cpp)
-- =============================================================================

/-- Priority policy (`ResolvePriorityPolicy`): scan keeping the entry
with highest priority, ties broken by lower request id; `none` on an
empty list. Returns the winning index. -/
def ResolvePriorityPolicy (requests : List PendingRequest) : Option Nat :=
  match requests with
  | [] => none
  | r0 :: rest =>
    let step := fun (acc : Nat × Int × AxisRequestId × Nat) (r : PendingRequest) =>
      let (winner, best_priority, best_id, i) := acc
      if r.desc.priority > best_priority ∨
         (r.desc.priority = best_priority ∧ r.id < best_id) then
        (i, r.desc.priority, r.id, i + 1)
      else
        (winner, best_priority, best_id, i + 1)
    some (rest.foldl step (0, r0.desc.priority, r0.id, 1)).1

/-- Last-writer policy (`ResolveLastWriterPolicy`): highest request id
wins. Returns the winning index. -/
def ResolveLastWriterPolicy (requests : List PendingRequest) : Option Nat :=
  match requests with
  | [] => none
  | r0 :: rest =>
    let step := fun (acc : Nat × AxisRequestId × Nat) (r : PendingRequest) =>
      let (winner, best_id, i) := acc
      if r.id > best_id then (i, r.id, i + 1) else (winner, best_id, i + 1)
    some (rest.foldl step (0, r0.id, 1)).1

/-- First-writer policy (`ResolveFirstWriterPolicy`): lowest request id
wins. Returns the winning index. -/
def ResolveFirstWriterPolicy (requests : List PendingRequest) : Option Nat :=
  match requests with
  | [] => none
  | r0 :: rest =>
    let step := fun (acc : Nat × AxisRequestId × Nat) (r : PendingRequest) =>
      let (winner, best_id, i) := acc
      if r.id < best_id then (i, r.id, i + 1) else (winner, best_id, i + 1)
    some (rest.foldl step (0, r0.id, 1)).1

/-- One insertion into a keyed bucket list: append to the existing bucket
for this key or open a new bucket at the back. This models insertion into
an `std::unordered_map` of vectors, with the unspecified iteration order
canonicalized to first-insertion order. -/
def bucketInsert (f : PendingRequest → Nat) (buckets : List (Nat × List PendingRequest))
    (r : PendingRequest) : List (Nat × List PendingRequest) :=
  if buckets.any (fun b => b.1 = f r) then
    buckets.map (fun b => if b.1 = f r then (b.1, b.2 ++ [r]) else b)
  else
    buckets ++ [(f r, [r])]

/-- Bucketing of a request list by an integer key. -/
def bucketsBy (f : PendingRequest → Nat) (requests : List PendingRequest) :
    List (Nat × List PendingRequest) :=
  requests.foldl (bucketInsert f) []

/-- Bucketing of requests by internal key hash, modelling the
`std::unordered_map<uint64_t, std::vector<const PendingRequest*>>` in
first-insertion order. -/
def bucketByKey (requests : List PendingRequest) : List (Nat × List PendingRequest) :=
  bucketsBy (fun r => MakeStateKeyHash r.desc.key) requests

/-- Deterministic sort of a key bucket by ascending request id, for
`std::sort` with the comparator `a->id < b->id`. -/
def sortById (l : List PendingRequest) : List PendingRequest :=
  l.insertionSort (fun a b => a.id ≤ b.id)

/-- Winner selection for one key bucket (the `switch` on the group's
policy in `ResolveConflictGroup`), on the id-sorted bucket. A custom
policy falls back to index 0 (first writer) when the callback is null,
fails, or returns an out-of-range index. -/
def selectWinnerIndex (group : ConflictGroupData) (key_requests : List PendingRequest) : Option Nat :=
  match group.policy with
  | .priority => ResolvePriorityPolicy key_requests
  | .lastWriter => ResolveLastWriterPolicy key_requests
  | .firstWriter => ResolveFirstWriterPolicy key_requests
  | .custom =>
    match group.custom_fn with
    | some fn =>
      match fn group.id (key_requests.map (fun r => r.desc)) with
      | some idx => if idx < key_requests.length then some idx else some 0
      | none => some 0
    | none => some 0

/-- Output changes contributed by one key bucket: the winner's
`(key, value)` pair unless the winning mutation is `Delete`, which
contributes nothing. -/
def bucketChanges (group : ConflictGroupData) (key_requests : List PendingRequest) : List (AxisStateKey × Nat) :=
  let sorted := sortById key_requests
  match selectWinnerIndex group sorted with
  | none => []
  | some winner_index =>
    match sorted[winner_index]? with
    | none => []
    | some winner =>
      if winner.desc.mutation_type ≠ AxisMutationType.delete then
        [(winner.desc.key, winner.desc.value)]
      else
        []

/-- The winning request of one key bucket: the `winner` pointer taken in
`ResolveConflictGroup` at the index selected by the group's policy on
the id-sorted bucket. -/
def bucketWinner (group : ConflictGroupData) (key_requests : List PendingRequest) :
    Option PendingRequest :=
  let sorted := sortById key_requests
  match selectWinnerIndex group sorted with
  | none => none
  | some winner_index => sorted[winner_index]?

/-- Conflict resolution for one group and one slot
(`ResolveConflictGroup`): bucket the requests by key hash, resolve each
bucket under the group's policy, collect the winners' changes and hash
them. The C++ function always reports success. -/
def ResolveConflictGroup (group : ConflictGroupData) (requests : List PendingRequest) : GroupResolutionResult :=
  let changes := (bucketByKey requests).flatMap (fun b => bucketChanges group b.2)
  { group_id := group.id
    resolved_changes := changes
    change_hash := ComputeChangesHash changes }

-- =============================================================================
-- Termination policy (termination.cpp)
-- =============================================================================

/-- Termination evaluation (`BuiltinTerminationPolicy::Evaluate`): the
fixed if-chain SafetyCap, StepLimit, RequestDrain, GroupResolution,
ExternalSignal, CustomCallback; `terminationNone` when nothing fires. -/
def Evaluate (config : AxisTerminationConfig) (ctx : AxisSlotTerminationContext) : AxisTerminationReason :=
  if config.safety_cap > 0 ∧ ctx.elapsed_steps ≥ config.safety_cap then
    .safetyCap
  else if config.step_limit > 0 ∧ ctx.elapsed_steps ≥ config.step_limit then
    .stepLimit
  else if config.terminate_on_request_drain ≠ 0 ∧ ctx.pending_requests = 0 then
    .requestDrain
  else if config.terminate_on_group_resolution ≠ 0 ∧ ctx.total_groups > 0 ∧
          ctx.resolved_groups ≥ ctx.total_groups then
    .groupResolution
  else if config.required_external_flags ≠ 0 ∧
          ctx.external_flags &&& config.required_external_flags ≠ 0 then
    .externalSignal
  else
    match config.custom_callback with
    | some cb => if cb ctx ≠ 0 then .customCallback else .terminationNone
    | none => .terminationNone

-- =============================================================================
-- Time Axis state (slot_internal.h: TimeAxisState) and API (time_axis.cpp)
-- =============================================================================

/-- Axis configuration (`AxisTimeAxisConfig`); the worker thread count and
the initial group capacity do not affect observable behaviour and are
omitted. -/
structure AxisTimeAxisConfig where
  max_pending_requests : Nat
  anchor_interval : Nat
  max_anchors : Nat
  termination_config : Option AxisTerminationConfig

/-- Default axis configuration (`AxisTimeAxis_DefaultConfig`);
`AXIS_DEFAULT_ANCHOR_INTERVAL` is 1024. -/
def AxisTimeAxis_DefaultConfig : AxisTimeAxisConfig where
  max_pending_requests := 65536
  anchor_interval := 1024
  max_anchors := 64
  termination_config := none

/-- The axis state behind the opaque handle (`TimeAxisState`). The worker
pool and the debug commit callback carry no observable state and are
omitted. -/
structure TimeAxisState where
  config : AxisTimeAxisConfig
  current_slot : AxisSlotIndex
  next_request_id : AxisRequestId
  next_group_id : AxisConflictGroupId
  pending_requests : List PendingRequest
  conflict_groups : List ConflictGroupData
  anchors : List AnchorData
  last_anchor_slot : AxisSlotIndex
  next_anchor_id : Nat
  pending_transitions : List SlotTransition
  current_state : StateMap
  termination_config_v : AxisTerminationConfig
  termination_context : AxisSlotTerminationContext
  external_flags : Nat
  last_termination_reason : AxisTerminationReason
  termination_policy_hash : Nat
  lifecycle : AxisLifecycle
  total_requests_processed : Nat
  total_conflicts_resolved : Nat
  initialized : Bool

/-- Axis creation (`AxisTimeAxis_Create`), on the non-failing path: config
fallbacks (`anchor_interval`, `max_anchors`), immutable policy hash, and
the genesis anchor at slot 0. -/
def AxisTimeAxis_Create (config : AxisTimeAxisConfig) : TimeAxisState :=
  let actual : AxisTimeAxisConfig :=
    { config with
      anchor_interval := if config.anchor_interval = 0 then 1024 else config.anchor_interval
      max_anchors := if config.max_anchors = 0 then 64 else config.max_anchors }
  let tconfig :=
    match actual.termination_config with
    | some tc => tc
    | none => AxisTermination_DefaultConfig
  let policy_hash := GetPolicyHash tconfig
  let genesis : AnchorData :=
    { anchor_id := 1
      slot_index := 0
      state_snapshot := []
      transition_log := []
      transition_hash := (0, 0)
      resolution_hash := (0, 0)
      termination_policy_hash := policy_hash }
  { config := actual
    current_slot := 0
    next_request_id := 1
    next_group_id := 0
    pending_requests := []
    conflict_groups := []
    anchors := [genesis]
    last_anchor_slot := 0
    next_anchor_id := 2
    pending_transitions := []
    current_state := []
    termination_config_v := tconfig
    termination_context :=
      { elapsed_steps := 0, pending_requests := 0, resolved_groups := 0,
        total_groups := 0, external_flags := 0, causality_summary := none }
    external_flags := 0
    last_termination_reason := .terminationNone
    termination_policy_hash := policy_hash
    lifecycle := .active
    total_requests_processed := 0
    total_conflicts_resolved := 0
    initialized := true }

/-- Bucketing of collected requests by conflict group, modelling the
`std::unordered_map<AxisConflictGroupId, std::vector<const PendingRequest*>>`
in first-insertion order. -/
def bucketByGroup (requests : List PendingRequest) : List (AxisConflictGroupId × List PendingRequest) :=
  bucketsBy (fun r => r.desc.conflict_group) requests

/-- Group-configuration lookup inside the per-group resolution task: the
first active entry with a matching id, else a default first-writer
group. -/
def findGroupConfig (groups : List ConflictGroupData) (gid : AxisConflictGroupId) : ConflictGroupData :=
  match groups.find? (fun g => g.id = gid ∧ g.active) with
  | some g => g
  | none => { id := gid, policy := .firstWriter, custom_fn := none, active := true }

/-- Deterministic sort of group results by ascending group id (commit
order), for `std::sort` with the comparator `a.group_id < b.group_id`. -/
def sortByGroupId (l : List GroupResolutionResult) : List GroupResolutionResult :=
  l.insertionSort (fun a b => a.group_id ≤ b.group_id)

/-- Application of a list of resolved changes to the working state, as the
commit loop does: `current_state[MakeStateKeyHash(key)] = value`. -/
def applyChanges (m : StateMap) (changes : List (AxisStateKey × Nat)) : StateMap :=
  changes.foldl (fun s c => setKey s (MakeStateKeyHash c.1) c.2) m

/-- Commit of the sorted group results to the working state (the Step 4
double loop). -/
def commitResults (m : StateMap) (results : List GroupResolutionResult) : StateMap :=
  results.foldl (fun s r => applyChanges s r.resolved_changes) m

/-- FIFO pruning of the anchor ring: drop the oldest anchor while the
count exceeds `max_anchors`. -/
def pruneAnchors : List AnchorData → Nat → List AnchorData
  | [], _ => []
  | a :: as, max_anchors =>
    if (a :: as).length > max_anchors then pruneAnchors as max_anchors else a :: as

/-- Step 1 of a tick: requests collected for the target slot
`current_slot + 1` (cancelled entries are dropped from the queue). -/
def collectedFor (st : TimeAxisState) : List PendingRequest :=
  st.pending_requests.filter
    (fun r => ¬ r.cancelled ∧ r.desc.target_slot = st.current_slot + 1)

/-- Step 1 of a tick: requests left in the queue after collection
(non-cancelled entries for other slots). -/
def remainingFor (st : TimeAxisState) : List PendingRequest :=
  st.pending_requests.filter
    (fun r => ¬ r.cancelled ∧ r.desc.target_slot ≠ st.current_slot + 1)

/-- Steps 2 and 3 of a tick: partition the collected requests by conflict
group and resolve each group. `ResolveConflictGroup` always reports
success, so every observed group is also a resolved group. -/
def tickResults (st : TimeAxisState) : List GroupResolutionResult :=
  (bucketByGroup (collectedFor st)).map
    (fun b => ResolveConflictGroup (findGroupConfig st.conflict_groups b.1) b.2)

/-- Step 5 of a tick: the recorded slot transition (requests, aggregated
changes in commit order, combined XOR change hash). -/
def tickTransition (st : TimeAxisState) : SlotTransition :=
  { slot_index := st.current_slot + 1
    requests := collectedFor st
    resolved_changes := (sortByGroupId (tickResults st)).flatMap (fun r => r.resolved_changes)
    resolution_hash := (sortByGroupId (tickResults st)).foldl (fun h r => h ^^^ r.change_hash) 0 }

/-- Step 7 of a tick: whether the anchor interval has been reached at the
target slot. -/
def anchorDue (st : TimeAxisState) : Prop :=
  st.current_slot + 1 - st.last_anchor_slot ≥ st.config.anchor_interval

instance (st : TimeAxisState) : Decidable (anchorDue st) := by
  unfold anchorDue
  infer_instance

/-- Step 7 of a tick: the anchor created at the target slot, absorbing
the pending transitions (the new slot's transition included). -/
def tickAnchor (st : TimeAxisState) : AnchorData :=
  { anchor_id := st.next_anchor_id
    slot_index := st.current_slot + 1
    state_snapshot := commitResults st.current_state (sortByGroupId (tickResults st))
    transition_log := (st.pending_transitions ++ [tickTransition st]).flatMap (fun t => t.requests)
    transition_hash := ComputeTransitionHash (st.pending_transitions ++ [tickTransition st])
    resolution_hash := ComputeResolutionPolicyHash (sortByGroupId (tickResults st))
    termination_policy_hash := st.termination_policy_hash }

/-- Step 10 of a tick, as executed twice in sequence by the source: the
context after both copies have run (each increments `elapsed_steps`). -/
def tickContext (st : TimeAxisState) : AxisSlotTerminationContext :=
  { elapsed_steps := ((st.termination_context.elapsed_steps + 1) % U32 + 1) % U32
    pending_requests := (remainingFor st).length % U32
    resolved_groups := (bucketByGroup (collectedFor st)).length % U32
    total_groups := (bucketByGroup (collectedFor st)).length % U32
    external_flags := st.external_flags
    causality_summary := none }

/-- The state produced by the success path of a tick. -/
def tickSuccess (st : TimeAxisState) : TimeAxisState :=
  let sorted := sortByGroupId (tickResults st)
  let new_state := commitResults st.current_state sorted
  let total_changes := sorted.foldl (fun n r => n + r.resolved_changes.length) 0
  let reason2 := Evaluate st.termination_config_v (tickContext st)
  { st with
      current_slot := st.current_slot + 1
      pending_requests := remainingFor st
      anchors :=
        if anchorDue st then
          pruneAnchors (st.anchors ++ [tickAnchor st]) st.config.max_anchors
        else st.anchors
      last_anchor_slot := if anchorDue st then st.current_slot + 1 else st.last_anchor_slot
      next_anchor_id := if anchorDue st then st.next_anchor_id + 1 else st.next_anchor_id
      pending_transitions :=
        if anchorDue st then [] else st.pending_transitions ++ [tickTransition st]
      current_state := new_state
      termination_context := tickContext st
      last_termination_reason := reason2
      lifecycle := if reason2 ≠ .terminationNone then .terminated else st.lifecycle
      total_requests_processed := st.total_requests_processed + (collectedFor st).length
      total_conflicts_resolved := st.total_conflicts_resolved +
        (if (collectedFor st).length > total_changes
         then (collectedFor st).length - total_changes else 0) }

/-- One tick of the axis (`AxisTimeAxis_Tick`, final revision): lifecycle
gate, collect, group, resolve, deterministic commit, transition record,
statistics, interval anchor, slot advance, and the two termination-
evaluation blocks present in the source (each incrementing
`elapsed_steps`; only the second performs the lifecycle transition). -/
def AxisTimeAxis_Tick (st : TimeAxisState) : TimeAxisState × AxisTimeResultE :=
  if ¬ st.initialized then (st, .errNotInitialized)
  else if st.lifecycle = .terminated then (st, .errTerminated)
  else (tickSuccess st, .ok)

/-- Request submission (`AxisTimeAxis_SubmitRequest`): future-slot
validation, capacity check, id assignment, append. -/
def AxisTimeAxis_SubmitRequest (st : TimeAxisState) (desc : AxisStateChangeDesc) :
    TimeAxisState × AxisTimeResultE × Option AxisRequestId :=
  if desc.target_slot ≤ st.current_slot then (st, .errSlotInPast, none)
  else if st.pending_requests.length ≥ st.config.max_pending_requests then
    (st, .errRequestQueueFull, none)
  else
    let request : PendingRequest := { id := st.next_request_id, desc := desc, cancelled := false }
    ({ st with
        pending_requests := st.pending_requests ++ [request]
        next_request_id := st.next_request_id + 1 },
     .ok, some request.id)

/-- Batch submission (`AxisTimeAxis_SubmitRequestBatch`): empty batches
are rejected, then all target slots are validated, then capacity is
checked against `queue size + count`, then all requests are appended. -/
def AxisTimeAxis_SubmitRequestBatch (st : TimeAxisState) (descs : List AxisStateChangeDesc) :
    TimeAxisState × AxisTimeResultE :=
  if descs.length = 0 then (st, .errInvalidParameter)
  else if descs.any (fun d => d.target_slot ≤ st.current_slot) then (st, .errSlotInPast)
  else if st.pending_requests.length + descs.length > st.config.max_pending_requests then
    (st, .errRequestQueueFull)
  else
    let appended := descs.foldl
      (fun (acc : List PendingRequest × Nat) d =>
        (acc.1 ++ [{ id := acc.2, desc := d, cancelled := false }], acc.2 + 1))
      (st.pending_requests, st.next_request_id)
    ({ st with pending_requests := appended.1, next_request_id := appended.2 }, .ok)

/-- Tombstoning of the first matching non-cancelled record, for
`AxisTimeAxis_CancelRequest`. -/
def markFirstCancelled : List PendingRequest → AxisRequestId → List PendingRequest
  | [], _ => []
  | r :: rs, rid =>
    if r.id = rid ∧ ¬ r.cancelled then { r with cancelled := true } :: rs
    else r :: markFirstCancelled rs rid

/-- Request cancellation (`AxisTimeAxis_CancelRequest`): tombstone the
first matching non-cancelled record. -/
def AxisTimeAxis_CancelRequest (st : TimeAxisState) (request_id : AxisRequestId) :
    TimeAxisState × AxisTimeResultE :=
  if (st.pending_requests.any (fun r => r.id = request_id ∧ ¬ r.cancelled)) then
    ({ st with pending_requests := markFirstCancelled st.pending_requests request_id }, .ok)
  else (st, .errNotFound)

/-- Conflict-group creation (`AxisTimeAxis_CreateConflictGroup`): the
`Custom` policy value is rejected with `InvalidPolicy`; the table is
bounded by `AXIS_MAX_CONFLICT_GROUPS = 256`. -/
def AxisTimeAxis_CreateConflictGroup (st : TimeAxisState) (policy : AxisConflictPolicy) :
    TimeAxisState × AxisTimeResultE × Option AxisConflictGroupId :=
  if policy = .custom then (st, .errInvalidPolicy, none)
  else if st.conflict_groups.length ≥ 256 then (st, .errConflictGroupFull, none)
  else
    let group : ConflictGroupData :=
      { id := st.next_group_id, policy := policy, custom_fn := none, active := true }
    ({ st with
        conflict_groups := st.conflict_groups ++ [group]
        next_group_id := st.next_group_id + 1 },
     .ok, some group.id)

/-- Custom conflict-group creation (`AxisTimeAxis_CreateConflictGroupCustom`):
a null callback pointer is rejected with `InvalidParameter`. -/
def AxisTimeAxis_CreateConflictGroupCustom (st : TimeAxisState) (policy_fn : Option AxisCustomPolicyFn) :
    TimeAxisState × AxisTimeResultE × Option AxisConflictGroupId :=
  match policy_fn with
  | none => (st, .errInvalidParameter, none)
  | some fn =>
    if st.conflict_groups.length ≥ 256 then (st, .errConflictGroupFull, none)
    else
      let group : ConflictGroupData :=
        { id := st.next_group_id, policy := .custom, custom_fn := some fn, active := true }
      ({ st with
          conflict_groups := st.conflict_groups ++ [group]
          next_group_id := st.next_group_id + 1 },
       .ok, some group.id)

/-- Deactivation of the first matching group entry, for
`AxisTimeAxis_DestroyConflictGroup`. -/
def markFirstInactive : List ConflictGroupData → AxisConflictGroupId → List ConflictGroupData
  | [], _ => []
  | g :: gs, gid =>
    if g.id = gid then { g with active := false } :: gs
    else g :: markFirstInactive gs gid

/-- Conflict-group destruction (`AxisTimeAxis_DestroyConflictGroup`):
marks the first matching entry inactive; the id is never reused. -/
def AxisTimeAxis_DestroyConflictGroup (st : TimeAxisState) (gid : AxisConflictGroupId) :
    TimeAxisState × AxisTimeResultE :=
  if st.conflict_groups.any (fun g => g.id = gid) then
    ({ st with conflict_groups := markFirstInactive st.conflict_groups gid }, .ok)
  else (st, .errNotFound)

/-- External-signal set (`AxisTimeAxis_SetExternalSignal`): atomic OR. -/
def AxisTimeAxis_SetExternalSignal (st : TimeAxisState) (flag : Nat) : TimeAxisState :=
  { st with external_flags := st.external_flags ||| flag % U32 }

/-- External-signal clear (`AxisTimeAxis_ClearExternalSignal`): atomic
AND with the 32-bit complement of the flag. -/
def AxisTimeAxis_ClearExternalSignal (st : TimeAxisState) (flag : Nat) : TimeAxisState :=
  { st with external_flags := st.external_flags &&& ((flag % U32) ^^^ (U32 - 1)) }

-- =============================================================================
-- Anchors and reconstruction (anchor.cpp)
-- =============================================================================

/-- Application of one recorded transition to a state during replay
(`ApplyTransitionToState`). -/
def ApplyTransitionToState (t : SlotTransition) (m : StateMap) : StateMap :=
  applyChanges m t.resolved_changes

/-- Deterministic replay (`ReplayTransitionsToSlot`): start from the
anchor's snapshot and apply each transition in sequence until the first
one past `target_slot` (the loop breaks there). -/
def ReplayTransitionsToSlot (anchor : AnchorData) (transitions : List SlotTransition)
    (target_slot : AxisSlotIndex) : StateMap :=
  (transitions.takeWhile (fun t => t.slot_index ≤ target_slot)).foldl
    (fun s t => ApplyTransitionToState t s) anchor.state_snapshot

/-- Reverse scan of the anchor ring for the nearest anchor at or before
`slot_index` (the `rbegin`/`rend` loop). -/
def findNearestAnchor (anchors : List AnchorData) (slot_index : AxisSlotIndex) : Option AnchorData :=
  anchors.reverse.find? (fun a => a.slot_index ≤ slot_index)

/-- Oldest reconstructible slot (`AxisTimeAxis_GetOldestReconstructibleSlot`):
the front anchor's slot, or 0 when the ring is empty. -/
def AxisTimeAxis_GetOldestReconstructibleSlot (st : TimeAxisState) : AxisSlotIndex :=
  match st.anchors with
  | [] => 0
  | a :: _ => a.slot_index

/-- Reconstruction-key generation (`AxisTimeAxis_GetReconstructionKey`):
validates the slot against the oldest anchor (`SlotInPast`) and
`current_slot` (`InvalidParameter`), checks policy compatibility, then
serializes the reconstruction path. -/
def AxisTimeAxis_GetReconstructionKey (st : TimeAxisState) (slot_index : AxisSlotIndex) :
    Except AxisTimeResultE AxisReconstructionKey :=
  match st.anchors with
  | [] => .error .errAnchorNotFound
  | front :: _ =>
    if slot_index < front.slot_index then .error .errSlotInPast
    else if slot_index > st.current_slot then .error .errInvalidParameter
    else
      match findNearestAnchor st.anchors slot_index with
      | none => .error .errAnchorNotFound
      | some target_anchor =>
        if target_anchor.termination_policy_hash ≠ st.termination_policy_hash then
          .error .errPolicyMismatch
        else
          let relevant := st.pending_transitions.filter
            (fun t => target_anchor.slot_index < t.slot_index ∧ t.slot_index ≤ slot_index)
          .ok
            { anchor_id := target_anchor.anchor_id
              target_slot := slot_index
              transition_hash := ComputeTransitionHash relevant
              policy_hash := target_anchor.resolution_hash }

/-- Manual anchor creation (`AxisTimeAxis_CreateAnchorNow`): snapshot the
working state at the current slot, absorb the pending transition log,
clear it, and prune the ring. The resolution hash is zeroed here (it is
only available during a tick). -/
def AxisTimeAxis_CreateAnchorNow (st : TimeAxisState) : TimeAxisState × AxisTimeResultE :=
  let current := st.current_slot
  let anchor : AnchorData :=
    { anchor_id := st.next_anchor_id
      slot_index := current
      state_snapshot := st.current_state
      transition_log := st.pending_transitions.flatMap (fun t => t.requests)
      transition_hash := ComputeTransitionHash st.pending_transitions
      resolution_hash := (0, 0)
      termination_policy_hash := st.termination_policy_hash }
  ({ st with
      anchors := pruneAnchors (st.anchors ++ [anchor]) st.config.max_anchors
      next_anchor_id := st.next_anchor_id + 1
      last_anchor_slot := current
      pending_transitions := [] },
   .ok)

/-- Anchor-interval update (`AxisTimeAxis_SetAnchorInterval`): a zero
interval is rejected. -/
def AxisTimeAxis_SetAnchorInterval (st : TimeAxisState) (interval : Nat) :
    TimeAxisState × AxisTimeResultE :=
  if interval = 0 then (st, .errInvalidParameter)
  else ({ st with config := { st.config with anchor_interval := interval } }, .ok)

/-- State reconstruction (`AxisTimeAxis_ReconstructState`, final
revision): a slot below the oldest anchor is rejected with
`ReconstructionFailed`; otherwise the nearest anchor at or before the
slot is found, its policy hash verified, the pending transitions in
`(anchor, slot]` collected and replayed. The enumerated output is
modelled as the reconstructed state map. -/
def AxisTimeAxis_ReconstructState (st : TimeAxisState) (slot_index : AxisSlotIndex) :
    Except AxisTimeResultE StateMap :=
  match st.anchors with
  | [] => .error .errAnchorNotFound
  | front :: _ =>
    if slot_index < front.slot_index then .error .errReconstructionFailed
    else
      match findNearestAnchor st.anchors slot_index with
      | none => .error .errAnchorNotFound
      | some target_anchor =>
        if target_anchor.termination_policy_hash ≠ st.termination_policy_hash then
          .error .errPolicyMismatch
        else
          let relevant := st.pending_transitions.filter
            (fun t => target_anchor.slot_index < t.slot_index ∧ t.slot_index ≤ slot_index)
          .ok (ReplayTransitionsToSlot target_anchor relevant slot_index)

/-- Point query (`AxisTimeAxis_QueryState`, final revision): the current
slot is answered from the working state; past slots find the nearest
anchor, verify its policy hash, and replay. -/
def AxisTimeAxis_QueryState (st : TimeAxisState) (slot_index : AxisSlotIndex) (key : AxisStateKey) :
    Except AxisTimeResultE Nat :=
  if slot_index = st.current_slot then
    match lookupKey st.current_state (MakeStateKeyHash key) with
    | some v => .ok v
    | none => .error .errNotFound
  else if st.anchors = [] then .error .errAnchorNotFound
  else
    match findNearestAnchor st.anchors slot_index with
    | none => .error .errAnchorNotFound
    | some target_anchor =>
      if target_anchor.termination_policy_hash ≠ st.termination_policy_hash then
        .error .errPolicyMismatch
      else
        let relevant := st.pending_transitions.filter
          (fun t => target_anchor.slot_index < t.slot_index ∧ t.slot_index ≤ slot_index)
        match lookupKey (ReplayTransitionsToSlot target_anchor relevant slot_index)
            (MakeStateKeyHash key) with
        | some v => .ok v
        | none => .error .errNotFound

-- =============================================================================
-- Axis histories: API command sequences and the per-slot state history
-- =============================================================================

/-- One API call a host can make on a live axis (the operations of the
submitter and tick threads). -/
inductive AxisCmd where
  | tick
  | submit (desc : AxisStateChangeDesc)
  | submitBatch (descs : List AxisStateChangeDesc)
  | cancel (rid : AxisRequestId)
  | createGroup (policy : AxisConflictPolicy)
  | createGroupCustom (fn : Option AxisCustomPolicyFn)
  | destroyGroup (gid : AxisConflictGroupId)
  | setSignal (flag : Nat)
  | clearSignal (flag : Nat)
  | createAnchorNow
  | setAnchorInterval (interval : Nat)

/-- Effect of one API command on the axis state. -/
def stepCmd (st : TimeAxisState) : AxisCmd → TimeAxisState
  | .tick => (AxisTimeAxis_Tick st).1
  | .submit desc => (AxisTimeAxis_SubmitRequest st desc).1
  | .submitBatch descs => (AxisTimeAxis_SubmitRequestBatch st descs).1
  | .cancel rid => (AxisTimeAxis_CancelRequest st rid).1
  | .createGroup policy => (AxisTimeAxis_CreateConflictGroup st policy).1
  | .createGroupCustom fn => (AxisTimeAxis_CreateConflictGroupCustom st fn).1
  | .destroyGroup gid => (AxisTimeAxis_DestroyConflictGroup st gid).1
  | .setSignal flag => AxisTimeAxis_SetExternalSignal st flag
  | .clearSignal flag => AxisTimeAxis_ClearExternalSignal st flag
  | .createAnchorNow => (AxisTimeAxis_CreateAnchorNow st).1
  | .setAnchorInterval interval => (AxisTimeAxis_SetAnchorInterval st interval).1

/-- Effect of one API command on the state paired with the history of
working states: entry `s` of the history is the working state right
after the tick that committed slot `s` (entry 0 is the genesis state).
Only a successful tick extends the history. -/
def stepCmdHist (sh : TimeAxisState × List StateMap) (c : AxisCmd) :
    TimeAxisState × List StateMap :=
  match c with
  | .tick =>
    let r := AxisTimeAxis_Tick sh.1
    (r.1, if r.2 = .ok then sh.2 ++ [r.1.current_state] else sh.2)
  | c => (stepCmd sh.1 c, sh.2)

/-- Axis state after a command sequence from creation. -/
def execCmds (config : AxisTimeAxisConfig) (cmds : List AxisCmd) : TimeAxisState :=
  cmds.foldl stepCmd (AxisTimeAxis_Create config)

/-- Axis state and working-state history after a command sequence from
creation. -/
def execCmdsHist (config : AxisTimeAxisConfig) (cmds : List AxisCmd) :
    TimeAxisState × List StateMap :=
  cmds.foldl stepCmdHist (AxisTimeAxis_Create config, [[]])

-- =============================================================================
-- Spec-side definitions used by refinement-style claims
-- =============================================================================

/-- Termination conditions in the spec's fixed order, as a condition /
reason table (formalizing the spec's list in section 4.4). -/
def specTerminationConditionList (config : AxisTerminationConfig)
    (ctx : AxisSlotTerminationContext) : List (Bool × AxisTerminationReason) :=
  [ (decide (config.safety_cap > 0 ∧ ctx.elapsed_steps ≥ config.safety_cap),
      .safetyCap),
    (decide (config.step_limit > 0 ∧ ctx.elapsed_steps ≥ config.step_limit),
      .stepLimit),
    (decide (config.terminate_on_request_drain ≠ 0 ∧ ctx.pending_requests = 0),
      .requestDrain),
    (decide (config.terminate_on_group_resolution ≠ 0 ∧ ctx.total_groups > 0 ∧
        ctx.resolved_groups ≥ ctx.total_groups),
      .groupResolution),
    (decide (config.required_external_flags ≠ 0 ∧
        ctx.external_flags &&& config.required_external_flags ≠ 0),
      .externalSignal),
    ((match config.custom_callback with
      | some cb => decide (cb ctx ≠ 0)
      | none => false),
      .customCallback) ]

/-- First matching condition's reason, `terminationNone` when no
condition matches (the spec's "first match wins" evaluation). -/
def specFirstMatchReason (config : AxisTerminationConfig)
    (ctx : AxisSlotTerminationContext) : AxisTerminationReason :=
  ((((specTerminationConditionList config ctx).find? (fun p => p.1)).map
    (fun p => p.2)).getD .terminationNone)

-- =============================================================================
-- Shared helper definitions for theorems
-- =============================================================================

/-- Requests as appended by the batch-submission loop: consecutive ids
starting from the current id counter. -/
def assignIds : List AxisStateChangeDesc → Nat → List PendingRequest
  | [], _ => []
  | d :: ds, n => { id := n, desc := d, cancelled := false } :: assignIds ds (n + 1)

-- =============================================================================
-- Helper lemmas
-- =============================================================================

theorem find?_six_entry_table {α : Type} (b1 b2 b3 b4 b5 b6 : Bool) (r1 r2 r3 r4 r5 r6 d : α) :
    (((List.find? (fun p => p.1)
        [(b1, r1), (b2, r2), (b3, r3), (b4, r4), (b5, r5), (b6, r6)]).map
      (fun p => p.2)).getD d) =
    if b1 then r1 else if b2 then r2 else if b3 then r3 else if b4 then r4
    else if b5 then r5 else if b6 then r6 else d := by
  cases b1 <;> cases b2 <;> cases b3 <;> cases b4 <;> cases b5 <;> cases b6 <;> rfl

theorem submitBatch_fold_eq (descs : List AxisStateChangeDesc) (q : List PendingRequest) (n : Nat) :
    descs.foldl
      (fun (acc : List PendingRequest × Nat) d =>
        (acc.1 ++ [{ id := acc.2, desc := d, cancelled := false }], acc.2 + 1)) (q, n)
    = (q ++ assignIds descs n, n + descs.length) := by
  induction descs generalizing q n with
  | nil => simp [assignIds]
  | cons d ds ih =>
    simp only [List.foldl_cons, ih, assignIds, List.length_cons]
    rw [Prod.mk.injEq]
    constructor
    · simp
    · omega

-- =============================================================================
-- Claim theorems
-- =============================================================================

/-- C10: creating a conflict group with the `Custom` policy value fails
with `InvalidPolicy` and leaves the whole axis state (in particular the
group table) unchanged; creating a custom group through the dedicated
entry point with a null callback pointer fails with `InvalidParameter`
and leaves the state unchanged. -/
theorem create_group_custom_policy_validation (st : TimeAxisState) :
    AxisTimeAxis_CreateConflictGroup st .custom = (st, .errInvalidPolicy, none) ∧
    AxisTimeAxis_CreateConflictGroupCustom st none = (st, .errInvalidParameter, none) := by
  constructor
  · simp [AxisTimeAxis_CreateConflictGroup]
  · rfl

/-- C1: the claim states that after N successful ticks `elapsed_steps`
equals exactly N, incremented once per tick. The final tick revision in
the source contains two copies of the termination-evaluation block, each
incrementing `elapsed_steps`, so one successful tick on a freshly
created axis leaves `elapsed_steps = 2`, not 1. This theorem evaluates
the embedded code at that failing input. -/
theorem tick_double_increments_elapsed_steps :
    (AxisTimeAxis_Tick (AxisTimeAxis_Create AxisTimeAxis_DefaultConfig)).2 = .ok ∧
    (AxisTimeAxis_Tick (AxisTimeAxis_Create AxisTimeAxis_DefaultConfig)).1.termination_context.elapsed_steps = 2 := by
  exact ⟨by decide, by decide⟩

/-- C2: on a terminated (and initialized) axis every tick call returns
the `Terminated` error and leaves the state completely unchanged, and no
API command whatsoever moves the lifecycle back from `Terminated`. -/
theorem terminated_axis_rejects_ticks_and_never_reactivates
    (st : TimeAxisState) (h : st.lifecycle = .terminated) (hinit : st.initialized = true) :
    AxisTimeAxis_Tick st = (st, .errTerminated) ∧
    ∀ c : AxisCmd, (stepCmd st c).lifecycle = .terminated := by
  constructor
  · simp [AxisTimeAxis_Tick, hinit, h]
  · intro c
    cases c with
    | tick =>
      show (AxisTimeAxis_Tick st).1.lifecycle = .terminated
      simp [AxisTimeAxis_Tick, hinit, h]
    | submit desc =>
      show (AxisTimeAxis_SubmitRequest st desc).1.lifecycle = .terminated
      unfold AxisTimeAxis_SubmitRequest
      split_ifs <;> exact h
    | submitBatch descs =>
      show (AxisTimeAxis_SubmitRequestBatch st descs).1.lifecycle = .terminated
      unfold AxisTimeAxis_SubmitRequestBatch
      split_ifs <;> exact h
    | cancel rid =>
      show (AxisTimeAxis_CancelRequest st rid).1.lifecycle = .terminated
      unfold AxisTimeAxis_CancelRequest
      split_ifs <;> exact h
    | createGroup policy =>
      show (AxisTimeAxis_CreateConflictGroup st policy).1.lifecycle = .terminated
      unfold AxisTimeAxis_CreateConflictGroup
      split_ifs <;> exact h
    | createGroupCustom fn =>
      show (AxisTimeAxis_CreateConflictGroupCustom st fn).1.lifecycle = .terminated
      unfold AxisTimeAxis_CreateConflictGroupCustom
      cases fn with
      | none => exact h
      | some f => split_ifs <;> exact h
    | destroyGroup gid =>
      show (AxisTimeAxis_DestroyConflictGroup st gid).1.lifecycle = .terminated
      unfold AxisTimeAxis_DestroyConflictGroup
      split_ifs <;> exact h
    | setSignal flag => exact h
    | clearSignal flag => exact h
    | createAnchorNow =>
      show (AxisTimeAxis_CreateAnchorNow st).1.lifecycle = .terminated
      exact h
    | setAnchorInterval interval =>
      show (AxisTimeAxis_SetAnchorInterval st interval).1.lifecycle = .terminated
      unfold AxisTimeAxis_SetAnchorInterval
      split_ifs <;> exact h

/-- Config whose step limit terminates the axis on the first tick (the
final source's double increment reaches 2 >= 1). -/
def cfgStepLimitOne : AxisTimeAxisConfig :=
  { AxisTimeAxis_DefaultConfig with
    termination_config := some
      { step_limit := 1, safety_cap := 10000, terminate_on_request_drain := 0,
        terminate_on_group_resolution := 0, required_external_flags := 0,
        custom_callback := none } }

/-- Witness for C2: an axis actually driven into `Terminated` through the
API (step limit 1, one tick) rejects further ticks unchanged and stays
terminated under every command. -/
theorem terminated_axis_rejects_ticks_and_never_reactivates_witness :
    (execCmds cfgStepLimitOne [AxisCmd.tick]).lifecycle = .terminated ∧
    AxisTimeAxis_Tick (execCmds cfgStepLimitOne [AxisCmd.tick]) =
      (execCmds cfgStepLimitOne [AxisCmd.tick], .errTerminated) ∧
    ∀ c : AxisCmd, (stepCmd (execCmds cfgStepLimitOne [AxisCmd.tick]) c).lifecycle = .terminated := by
  refine ⟨by decide, ?_, ?_⟩
  · exact (terminated_axis_rejects_ticks_and_never_reactivates _ (by decide) (by decide)).1
  · exact (terminated_axis_rejects_ticks_and_never_reactivates _ (by decide) (by decide)).2

/-- C8: batch submission is all-or-nothing. With a non-empty batch: if
any descriptor targets a slot at or before `current_slot` the whole call
fails with `SlotInPast` and the state (in particular the queue) is
unchanged; otherwise if the queue size plus the batch size exceeds
`max_pending_requests` the call fails with `RequestQueueFull` and the
state is unchanged; otherwise every descriptor is appended, with
consecutive ids. -/
theorem submit_batch_atomic (st : TimeAxisState) (descs : List AxisStateChangeDesc)
    (hne : descs ≠ []) :
    (descs.any (fun d => d.target_slot ≤ st.current_slot) = true →
      AxisTimeAxis_SubmitRequestBatch st descs = (st, .errSlotInPast)) ∧
    (descs.any (fun d => d.target_slot ≤ st.current_slot) = false →
      st.pending_requests.length + descs.length > st.config.max_pending_requests →
      AxisTimeAxis_SubmitRequestBatch st descs = (st, .errRequestQueueFull)) ∧
    (descs.any (fun d => d.target_slot ≤ st.current_slot) = false →
      st.pending_requests.length + descs.length ≤ st.config.max_pending_requests →
      AxisTimeAxis_SubmitRequestBatch st descs =
        ({ st with
            pending_requests := st.pending_requests ++ assignIds descs st.next_request_id
            next_request_id := st.next_request_id + descs.length }, .ok)) := by
  have hlen : ¬ descs.length = 0 := by simpa using hne
  refine ⟨?_, ?_, ?_⟩
  · intro hany
    unfold AxisTimeAxis_SubmitRequestBatch
    rw [if_neg hlen, if_pos hany]
  · intro hany hover
    unfold AxisTimeAxis_SubmitRequestBatch
    rw [if_neg hlen, if_neg (by simp [hany]), if_pos hover]
  · intro hany hfits
    unfold AxisTimeAxis_SubmitRequestBatch
    rw [if_neg hlen, if_neg (by simp [hany]), if_neg (by omega), submitBatch_fold_eq]

/-- Descriptor used by concrete witnesses: a `Set` of value 42 on key
`(1, 0)` targeting slot 1 in group 0. -/
def descSet1 : AxisStateChangeDesc :=
  { target_slot := 1, conflict_group := 0, priority := 0,
    key := { primary := 1, secondary := 0 }, mutation_type := .set, value := 42 }

/-- Descriptor targeting the genesis slot (slot 0), rejected at
submission. -/
def descPast : AxisStateChangeDesc :=
  { target_slot := 0, conflict_group := 0, priority := 0,
    key := { primary := 1, secondary := 0 }, mutation_type := .set, value := 7 }

/-- Witness for C8: on a fresh axis, a batch containing a past-slot
descriptor is rejected wholesale with `SlotInPast` and the axis is
unchanged, and an admissible two-descriptor batch is appended in full
with consecutive ids. -/
theorem submit_batch_atomic_witness :
    AxisTimeAxis_SubmitRequestBatch (AxisTimeAxis_Create AxisTimeAxis_DefaultConfig)
        [descSet1, descPast] =
      (AxisTimeAxis_Create AxisTimeAxis_DefaultConfig, .errSlotInPast) ∧
    AxisTimeAxis_SubmitRequestBatch (AxisTimeAxis_Create AxisTimeAxis_DefaultConfig)
        [descSet1, descSet1] =
      ({ AxisTimeAxis_Create AxisTimeAxis_DefaultConfig with
          pending_requests := (AxisTimeAxis_Create AxisTimeAxis_DefaultConfig).pending_requests ++
            assignIds [descSet1, descSet1]
              (AxisTimeAxis_Create AxisTimeAxis_DefaultConfig).next_request_id
          next_request_id :=
            (AxisTimeAxis_Create AxisTimeAxis_DefaultConfig).next_request_id + 2 }, .ok) := by
  constructor
  · exact (submit_batch_atomic _ _ (by decide)).1 (by decide)
  · exact (submit_batch_atomic _ _ (by decide)).2.2 (by decide) (by decide)

/-- C5: the built-in termination evaluation returns exactly the reason of
the first matching condition of the spec's fixed table (SafetyCap,
StepLimit, RequestDrain, GroupResolution, ExternalSignal,
CustomCallback), and `None` when no condition matches. -/
theorem evaluate_is_first_match (config : AxisTerminationConfig)
    (ctx : AxisSlotTerminationContext) :
    Evaluate config ctx = specFirstMatchReason config ctx := by
  unfold specFirstMatchReason specTerminationConditionList
  rw [find?_six_entry_table]
  simp only [decide_eq_true_eq]
  unfold Evaluate
  cases config.custom_callback with
  | none => simp
  | some cb => simp only [decide_eq_true_eq]

-- =============================================================================
-- C7: policy hash
-- =============================================================================

/-- Two configs that differ in exactly one hashed field, where the
callback field is compared by presence (the hash records only whether
the pointer is null). -/
def DiffersInOneHashedField (c1 c2 : AxisTerminationConfig) : Prop :=
  (c1.step_limit ≠ c2.step_limit ∧ c1.safety_cap = c2.safety_cap ∧
    c1.terminate_on_request_drain = c2.terminate_on_request_drain ∧
    c1.terminate_on_group_resolution = c2.terminate_on_group_resolution ∧
    c1.required_external_flags = c2.required_external_flags ∧
    c1.custom_callback.isSome = c2.custom_callback.isSome) ∨
  (c1.step_limit = c2.step_limit ∧ c1.safety_cap ≠ c2.safety_cap ∧
    c1.terminate_on_request_drain = c2.terminate_on_request_drain ∧
    c1.terminate_on_group_resolution = c2.terminate_on_group_resolution ∧
    c1.required_external_flags = c2.required_external_flags ∧
    c1.custom_callback.isSome = c2.custom_callback.isSome) ∨
  (c1.step_limit = c2.step_limit ∧ c1.safety_cap = c2.safety_cap ∧
    c1.terminate_on_request_drain ≠ c2.terminate_on_request_drain ∧
    c1.terminate_on_group_resolution = c2.terminate_on_group_resolution ∧
    c1.required_external_flags = c2.required_external_flags ∧
    c1.custom_callback.isSome = c2.custom_callback.isSome) ∨
  (c1.step_limit = c2.step_limit ∧ c1.safety_cap = c2.safety_cap ∧
    c1.terminate_on_request_drain = c2.terminate_on_request_drain ∧
    c1.terminate_on_group_resolution ≠ c2.terminate_on_group_resolution ∧
    c1.required_external_flags = c2.required_external_flags ∧
    c1.custom_callback.isSome = c2.custom_callback.isSome) ∨
  (c1.step_limit = c2.step_limit ∧ c1.safety_cap = c2.safety_cap ∧
    c1.terminate_on_request_drain = c2.terminate_on_request_drain ∧
    c1.terminate_on_group_resolution = c2.terminate_on_group_resolution ∧
    c1.required_external_flags ≠ c2.required_external_flags ∧
    c1.custom_callback.isSome = c2.custom_callback.isSome) ∨
  (c1.step_limit = c2.step_limit ∧ c1.safety_cap = c2.safety_cap ∧
    c1.terminate_on_request_drain = c2.terminate_on_request_drain ∧
    c1.terminate_on_group_resolution = c2.terminate_on_group_resolution ∧
    c1.required_external_flags = c2.required_external_flags ∧
    c1.custom_callback.isSome ≠ c2.custom_callback.isSome)

theorem xor_lt_u64 {a b : Nat} (ha : a < U64) (hb : b < U64) : a ^^^ b < U64 := by
  have h := @Nat.bitwise_lt bne a b 64 (by simpa [U64] using ha) (by simpa [U64] using hb)
  simpa [U64, HXor.hXor, Nat.xor] using h

theorem fnvFold_lt (h x : Nat) : fnvFold h x < U64 := by
  unfold fnvFold
  exact Nat.mod_lt _ (by norm_num [U64])

theorem coprime_u64_prime : Nat.gcd U64 0x100000001b3 = 1 := by
  have h2 : Nat.Coprime 2 0x100000001b3 := by
    rw [Nat.coprime_two_left]
    decide
  exact h2.pow_left 64

theorem mul_prime_mod_u64_inj {a b : Nat} (ha : a < U64) (hb : b < U64)
    (h : a * 0x100000001b3 % U64 = b * 0x100000001b3 % U64) : a = b :=
  Nat.mod_eq_of_lt ha ▸ Nat.mod_eq_of_lt hb ▸
    Nat.ModEq.cancel_right_of_coprime coprime_u64_prime h

theorem fnvFold_inj_arg {h x y : Nat} (hh : h < U64) (hx : x < U64) (hy : y < U64) :
    fnvFold h x = fnvFold h y → x = y := by
  intro he
  unfold fnvFold at he
  rw [Nat.mod_eq_of_lt (xor_lt_u64 hh hx), Nat.mod_eq_of_lt (xor_lt_u64 hh hy)] at he
  exact Nat.xor_right_inj.mp (mul_prime_mod_u64_inj (xor_lt_u64 hh hx) (xor_lt_u64 hh hy) he)

theorem fnvFold_inj_acc {h1 h2 x : Nat} (hh1 : h1 < U64) (hh2 : h2 < U64) (hx : x < U64) :
    fnvFold h1 x = fnvFold h2 x → h1 = h2 := by
  intro he
  unfold fnvFold at he
  rw [Nat.mod_eq_of_lt (xor_lt_u64 hh1 hx), Nat.mod_eq_of_lt (xor_lt_u64 hh2 hx)] at he
  exact Nat.xor_left_inj.mp (mul_prime_mod_u64_inj (xor_lt_u64 hh1 hx) (xor_lt_u64 hh2 hx) he)

/-- Step-limit / safety-cap pair colliding with the zero config prefix:
found by a birthday search on the upper half of the first fold. -/
def policyCfgA : AxisTerminationConfig :=
  { step_limit := 658239179, safety_cap := 0, terminate_on_request_drain := 0,
    terminate_on_group_resolution := 0, required_external_flags := 0,
    custom_callback := none }

/-- Second component of the colliding pair: differs from `policyCfgA` in
`step_limit` and `safety_cap`, yet hashes identically. -/
def policyCfgB : AxisTerminationConfig :=
  { step_limit := 2419846856, safety_cap := 2499805885, terminate_on_request_drain := 0,
    terminate_on_group_resolution := 0, required_external_flags := 0,
    custom_callback := none }

/-- C7 counterexample: the 64-bit policy hash is not injective on
configs. `policyCfgA` and `policyCfgB` are well-formed, differ in the
`step_limit` (and `safety_cap`) fields, and produce the same policy
hash, refuting the claim that any two configs differing in at least one
field have different hashes. -/
theorem policy_hash_not_injective :
    policyCfgA.step_limit ≠ policyCfgB.step_limit ∧
    policyCfgA.WF ∧ policyCfgB.WF ∧
    GetPolicyHash policyCfgA = GetPolicyHash policyCfgB := by
  refine ⟨by decide, ?_, ?_, by decide⟩
  · refine ⟨by decide, by decide, by decide, by decide, by decide⟩
  · refine ⟨by decide, by decide, by decide, by decide, by decide⟩

/-- C7 (amended): the policy hash is deterministic on the config fields,
records only the presence of a custom callback, and separates any two
well-formed configs that differ in exactly one hashed field (callback
compared by presence): each fold step is injective because the FNV
multiplier is odd. -/
theorem policy_hash_single_field_injective (c1 c2 : AxisTerminationConfig)
    (hw1 : c1.WF) (hw2 : c2.WF) (hd : DiffersInOneHashedField c1 c2) :
    GetPolicyHash c1 ≠ GetPolicyHash c2 := by
  obtain ⟨hsl1, hsc1, hdr1, hgr1, hfl1⟩ := hw1
  obtain ⟨hsl2, hsc2, hdr2, hgr2, hfl2⟩ := hw2
  have hu32 : U32 < U64 := by norm_num [U32, U64]
  have hu31 : (2 : Nat) ^ 31 < U64 := by norm_num [U64]
  have bsl1 : c1.step_limit < U64 := lt_trans hsl1 hu32
  have bsc1 : c1.safety_cap < U64 := lt_trans hsc1 hu32
  have bdr1 : c1.terminate_on_request_drain < U64 := lt_trans hdr1 hu31
  have bgr1 : c1.terminate_on_group_resolution < U64 := lt_trans hgr1 hu31
  have bfl1 : c1.required_external_flags < U64 := lt_trans hfl1 hu32
  have bsl2 : c2.step_limit < U64 := lt_trans hsl2 hu32
  have bsc2 : c2.safety_cap < U64 := lt_trans hsc2 hu32
  have bdr2 : c2.terminate_on_request_drain < U64 := lt_trans hdr2 hu31
  have bgr2 : c2.terminate_on_group_resolution < U64 := lt_trans hgr2 hu31
  have bfl2 : c2.required_external_flags < U64 := lt_trans hfl2 hu32
  have hseed : (0x9e3779b97f4a7c15 : Nat) < U64 := by norm_num [U64]
  intro heq
  simp only [GetPolicyHash] at heq
  have strip : ∀ x y : Nat,
      (if c2.custom_callback.isSome then x ^^^ 0xDEADBEEFCAFEBABE else x) =
      (if c2.custom_callback.isSome then y ^^^ 0xDEADBEEFCAFEBABE else y) → x = y := by
    intro x y hxy
    by_cases hs : c2.custom_callback.isSome
    · rw [if_pos hs, if_pos hs] at hxy
      exact Nat.xor_left_inj.mp hxy
    · rwa [if_neg hs, if_neg hs] at hxy
  rcases hd with ⟨hne, e2, e3, e4, e5, ep⟩ | ⟨e1, hne, e3, e4, e5, ep⟩ |
    ⟨e1, e2, hne, e4, e5, ep⟩ | ⟨e1, e2, e3, hne, e5, ep⟩ |
    ⟨e1, e2, e3, e4, hne, ep⟩ | ⟨e1, e2, e3, e4, e5, hne⟩
  · rw [e2, e3, e4, e5, ep] at heq
    have q5 := strip _ _ heq
    have q4 := fnvFold_inj_acc (fnvFold_lt _ _) (fnvFold_lt _ _) bfl2 q5
    have q3 := fnvFold_inj_acc (fnvFold_lt _ _) (fnvFold_lt _ _) bgr2 q4
    have q2 := fnvFold_inj_acc (fnvFold_lt _ _) (fnvFold_lt _ _) bdr2 q3
    have q1 := fnvFold_inj_acc (fnvFold_lt _ _) (fnvFold_lt _ _) bsc2 q2
    exact hne (fnvFold_inj_arg hseed bsl1 bsl2 q1)
  · rw [e1, e3, e4, e5, ep] at heq
    have q5 := strip _ _ heq
    have q4 := fnvFold_inj_acc (fnvFold_lt _ _) (fnvFold_lt _ _) bfl2 q5
    have q3 := fnvFold_inj_acc (fnvFold_lt _ _) (fnvFold_lt _ _) bgr2 q4
    have q2 := fnvFold_inj_acc (fnvFold_lt _ _) (fnvFold_lt _ _) bdr2 q3
    exact hne (fnvFold_inj_arg (fnvFold_lt _ _) bsc1 bsc2 q2)
  · rw [e1, e2, e4, e5, ep] at heq
    have q5 := strip _ _ heq
    have q4 := fnvFold_inj_acc (fnvFold_lt _ _) (fnvFold_lt _ _) bfl2 q5
    have q3 := fnvFold_inj_acc (fnvFold_lt _ _) (fnvFold_lt _ _) bgr2 q4
    exact hne (fnvFold_inj_arg (fnvFold_lt _ _) bdr1 bdr2 q3)
  · rw [e1, e2, e3, e5, ep] at heq
    have q5 := strip _ _ heq
    have q4 := fnvFold_inj_acc (fnvFold_lt _ _) (fnvFold_lt _ _) bfl2 q5
    exact hne (fnvFold_inj_arg (fnvFold_lt _ _) bgr1 bgr2 q4)
  · rw [e1, e2, e3, e4, ep] at heq
    have q5 := strip _ _ heq
    exact hne (fnvFold_inj_arg (fnvFold_lt _ _) bfl1 bfl2 q5)
  · rw [e1, e2, e3, e4, e5] at heq
    cases hb1 : c1.custom_callback.isSome <;> cases hb2 : c2.custom_callback.isSome
    · exact hne (hb1.trans hb2.symm)
    · rw [hb1, hb2, if_neg (by simp), if_pos (by simp)] at heq
      have : (0xDEADBEEFCAFEBABE : Nat) = 0 := by
        have h0 := heq
        conv at h0 => lhs; rw [← Nat.xor_zero (fnvFold (fnvFold (fnvFold (fnvFold (fnvFold
          0x9e3779b97f4a7c15 c2.step_limit) c2.safety_cap) c2.terminate_on_request_drain)
          c2.terminate_on_group_resolution) c2.required_external_flags)]
        exact (Nat.xor_right_inj.mp h0).symm
      norm_num at this
    · rw [hb1, hb2, if_pos (by simp), if_neg (by simp)] at heq
      have : (0xDEADBEEFCAFEBABE : Nat) = 0 := by
        have h0 := heq
        conv at h0 => rhs; rw [← Nat.xor_zero (fnvFold (fnvFold (fnvFold (fnvFold (fnvFold
          0x9e3779b97f4a7c15 c2.step_limit) c2.safety_cap) c2.terminate_on_request_drain)
          c2.terminate_on_group_resolution) c2.required_external_flags)]
        exact Nat.xor_right_inj.mp h0
      norm_num at this
    · exact hne (hb1.trans hb2.symm)

/-- Witness for the amended C7: the default config and the default
config with `step_limit` 5 differ in exactly that field and have
different policy hashes. -/
theorem policy_hash_single_field_injective_witness :
    GetPolicyHash AxisTermination_DefaultConfig ≠
      GetPolicyHash { AxisTermination_DefaultConfig with step_limit := 5 } := by
  refine policy_hash_single_field_injective _ _ ?_ ?_ ?_
  · exact ⟨by decide, by decide, by decide, by decide, by decide⟩
  · exact ⟨by decide, by decide, by decide, by decide, by decide⟩
  · exact Or.inl ⟨by decide, rfl, rfl, rfl, rfl, rfl⟩

-- =============================================================================
-- C9: first-writer resolution
-- =============================================================================

theorem foldl_bucketInsert_const {f : PendingRequest → Nat} {kh : Nat}
    (l : List PendingRequest) (acc : List PendingRequest)
    (hall : ∀ r ∈ l, f r = kh) :
    l.foldl (bucketInsert f) [(kh, acc)] = [(kh, acc ++ l)] := by
  induction l generalizing acc with
  | nil => simp
  | cons r rs ih =>
    have hr : f r = kh := hall r (by simp)
    have step : bucketInsert f [(kh, acc)] r = [(kh, acc ++ [r])] := by
      simp [bucketInsert, hr]
    rw [List.foldl_cons, step, ih (acc ++ [r]) (fun x hx => hall x (by simp [hx]))]
    simp

theorem bucketsBy_const {f : PendingRequest → Nat} {kh : Nat}
    (reqs : List PendingRequest) (hne : reqs ≠ [])
    (hall : ∀ r ∈ reqs, f r = kh) :
    bucketsBy f reqs = [(kh, reqs)] := by
  cases reqs with
  | nil => exact absurd rfl hne
  | cons r rs =>
    have hr : f r = kh := hall r (by simp)
    unfold bucketsBy
    have step : bucketInsert f [] r = [(kh, [r])] := by simp [bucketInsert, hr]
    rw [List.foldl_cons, step, foldl_bucketInsert_const rs [r]
      (fun x hx => hall x (by simp [hx]))]
    simp

theorem firstWriter_fold_keeps_min (l : List PendingRequest) (w b i : Nat)
    (hb : ∀ r ∈ l, b ≤ r.id) :
    (l.foldl
      (fun (acc : Nat × AxisRequestId × Nat) (r : PendingRequest) =>
        let (winner, best_id, i) := acc
        if r.id < best_id then (i, r.id, i + 1) else (winner, best_id, i + 1))
      (w, b, i)).1 = w := by
  induction l generalizing i with
  | nil => rfl
  | cons r rs ih =>
    have hr : ¬ r.id < b := not_lt.mpr (hb r (by simp))
    simp only [List.foldl_cons, if_neg hr]
    exact ih (i + 1) (fun x hx => hb x (by simp [hx]))

theorem resolveFirstWriter_sorted_head (r0 : PendingRequest) (rest : List PendingRequest)
    (hmin : ∀ r ∈ rest, r0.id ≤ r.id) :
    ResolveFirstWriterPolicy (r0 :: rest) = some 0 := by
  unfold ResolveFirstWriterPolicy
  dsimp only
  rw [firstWriter_fold_keeps_min rest 0 r0.id 1 hmin]

/-- C9: under the `FirstWriter` policy, resolving any non-empty set of
requests that share one state key selects a winner carried by the
lowest request id; the group's output is that winner's `(key, value)`
change (empty for a `Delete` winner). -/
theorem first_writer_lowest_id_wins (g : ConflictGroupData) (reqs : List PendingRequest)
    (k : AxisStateKey) (hp : g.policy = .firstWriter) (hne : reqs ≠ [])
    (hk : ∀ r ∈ reqs, r.desc.key = k) :
    ∃ w ∈ reqs, (∀ r ∈ reqs, w.id ≤ r.id) ∧
      (ResolveConflictGroup g reqs).resolved_changes =
        (if w.desc.mutation_type = AxisMutationType.delete then []
         else [(w.desc.key, w.desc.value)]) := by
  have hbucket : bucketByKey reqs = [(MakeStateKeyHash k, reqs)] := by
    unfold bucketByKey
    exact bucketsBy_const reqs hne (fun r hr => by rw [hk r hr])
  have hperm : List.Perm (sortById reqs) reqs := List.perm_insertionSort _ reqs
  haveI : IsTotal PendingRequest (fun a b => a.id ≤ b.id) := ⟨fun a b => Nat.le_total a.id b.id⟩
  haveI : IsTrans PendingRequest (fun a b => a.id ≤ b.id) := ⟨fun _ _ _ => Nat.le_trans⟩
  have hsorted : List.Sorted (fun a b => a.id ≤ b.id) (sortById reqs) :=
    List.sorted_insertionSort _ reqs
  cases hs : sortById reqs with
  | nil =>
    exfalso
    have := hperm.length_eq
    rw [hs] at this
    cases reqs with
    | nil => exact hne rfl
    | cons a as => simp at this
  | cons s0 srest =>
    rw [hs] at hsorted hperm
    have hmin0 : ∀ r ∈ srest, s0.id ≤ r.id := (List.sorted_cons.mp hsorted).1
    refine ⟨s0, hperm.mem_iff.mp (by simp), ?_, ?_⟩
    · intro r hr
      rcases List.mem_cons.mp (hperm.mem_iff.mpr hr) with h0 | hmem
      · exact Nat.le_of_eq (congrArg PendingRequest.id h0.symm)
      · exact hmin0 r hmem
    · unfold ResolveConflictGroup
      rw [hbucket]
      simp only [List.flatMap_cons, List.flatMap_nil, List.append_nil]
      unfold bucketChanges selectWinnerIndex
      rw [hs, hp]
      dsimp only
      rw [resolveFirstWriter_sorted_head s0 srest hmin0]
      simp only [List.getElem?_cons_zero]
      by_cases hdel : s0.desc.mutation_type = AxisMutationType.delete <;> simp [hdel]

/-- First-writer group with id 0, as in scenario S6. -/
def grpFirstWriter : ConflictGroupData :=
  { id := 0, policy := .firstWriter, custom_fn := none, active := true }

/-- State key shared by the three S6 requests. -/
def keyS6 : AxisStateKey := { primary := 7, secondary := 3 }

/-- One S6 request: a `Set` of value `v` on `keyS6` at slot 1 in group 0,
with the given request id. -/
def reqS6 (i v : Nat) : PendingRequest :=
  { id := i
    desc := { target_slot := 1, conflict_group := 0, priority := 0,
              key := keyS6, mutation_type := .set, value := v }
    cancelled := false }

/-- Axis holding the S6 scenario: one first-writer group and three
same-key pending requests at slot 1 with request ids 10, 7, 15. -/
def axisS6 : TimeAxisState :=
  { AxisTimeAxis_Create AxisTimeAxis_DefaultConfig with
    conflict_groups := [grpFirstWriter]
    pending_requests := [reqS6 10 100, reqS6 7 700, reqS6 15 1500] }

/-- Witness for C9: with request ids 10, 7 and 15 on one key the winner
has id 7, and ticking the scenario axis once commits the value 700
carried by request id 7. -/
theorem first_writer_lowest_id_wins_witness :
    (∃ w ∈ [reqS6 10 100, reqS6 7 700, reqS6 15 1500],
      (∀ r ∈ [reqS6 10 100, reqS6 7 700, reqS6 15 1500], w.id ≤ r.id) ∧
      (ResolveConflictGroup grpFirstWriter
          [reqS6 10 100, reqS6 7 700, reqS6 15 1500]).resolved_changes =
        (if w.desc.mutation_type = AxisMutationType.delete then []
         else [(w.desc.key, w.desc.value)])) ∧
    (ResolveConflictGroup grpFirstWriter
        [reqS6 10 100, reqS6 7 700, reqS6 15 1500]).resolved_changes = [(keyS6, 700)] ∧
    lookupKey (AxisTimeAxis_Tick axisS6).1.current_state (MakeStateKeyHash keyS6) = some 700 := by
  refine ⟨?_, by decide, by decide⟩
  exact first_writer_lowest_id_wins grpFirstWriter _ keyS6 rfl (by decide)
    (by intro r hr; fin_cases hr <;> rfl)

-- =============================================================================
-- C3: Delete mutations
-- =============================================================================

theorem find?_update_ne (m : StateMap) (k v kh : Nat) (hne : k ≠ kh) :
    (m.map (fun p => if p.1 = k then (k, v) else p)).find? (fun p => p.1 = kh)
      = m.find? (fun p => p.1 = kh) := by
  induction m with
  | nil => rfl
  | cons a m' ih =>
    by_cases ha : a.1 = k
    · have h1 : ¬ ((k : Nat) = kh) := hne
      have h2 : ¬ (a.1 = kh) := by rw [ha]; exact hne
      simp only [List.map_cons, if_pos ha, List.find?_cons]
      rw [decide_eq_false h1, decide_eq_false h2]
      exact ih
    · simp only [List.map_cons, if_neg ha, List.find?_cons]
      cases hp : decide (a.1 = kh) with
      | true => rfl
      | false => exact ih

theorem find?_append_singleton_ne (m : StateMap) (k v kh : Nat) (hne : k ≠ kh) :
    (m ++ [(k, v)]).find? (fun p => p.1 = kh) = m.find? (fun p => p.1 = kh) := by
  induction m with
  | nil => simp [List.find?, hne]
  | cons a m' ih =>
    simp only [List.cons_append, List.find?_cons]
    cases hp : decide (a.1 = kh) with
    | true => rfl
    | false => exact ih

theorem lookup_setKey_ne (m : StateMap) (k v kh : Nat) (hne : k ≠ kh) :
    lookupKey (setKey m k v) kh = lookupKey m kh := by
  unfold setKey lookupKey
  by_cases hany : m.any (fun p => p.1 = k)
  · rw [if_pos hany, find?_update_ne m k v kh hne]
  · rw [if_neg hany, find?_append_singleton_ne m k v kh hne]

theorem lookup_applyChanges_ne (changes : List (AxisStateKey × Nat)) (m : StateMap) (kh : Nat)
    (h : ∀ c ∈ changes, MakeStateKeyHash c.1 ≠ kh) :
    lookupKey (applyChanges m changes) kh = lookupKey m kh := by
  induction changes generalizing m with
  | nil => rfl
  | cons c cs ih =>
    unfold applyChanges
    rw [List.foldl_cons]
    have step : lookupKey (applyChanges (setKey m (MakeStateKeyHash c.1) c.2) cs) kh
        = lookupKey (setKey m (MakeStateKeyHash c.1) c.2) kh :=
      ih _ (fun x hx => h x (by simp [hx]))
    exact step.trans (lookup_setKey_ne m _ c.2 kh (h c (by simp)))

theorem lookup_commitResults_ne (results : List GroupResolutionResult) (m : StateMap) (kh : Nat)
    (h : ∀ res ∈ results, ∀ c ∈ res.resolved_changes, MakeStateKeyHash c.1 ≠ kh) :
    lookupKey (commitResults m results) kh = lookupKey m kh := by
  induction results generalizing m with
  | nil => rfl
  | cons res rs ih =>
    unfold commitResults
    rw [List.foldl_cons]
    have step := ih (applyChanges m res.resolved_changes)
      (fun x hx => h x (by simp [hx]))
    exact step.trans (lookup_applyChanges_ne res.resolved_changes m kh (h res (by simp)))

theorem bucketInsert_forall {f : PendingRequest → Nat} {P : PendingRequest → Prop}
    (acc : List (Nat × List PendingRequest)) (r : PendingRequest)
    (hacc : ∀ b ∈ acc, ∀ x ∈ b.2, P x) (hr : P r) :
    ∀ b ∈ bucketInsert f acc r, ∀ x ∈ b.2, P x := by
  intro b hb x hx
  unfold bucketInsert at hb
  by_cases hany : acc.any (fun b => b.1 = f r)
  · rw [if_pos hany] at hb
    obtain ⟨b0, hb0, hmap⟩ := List.mem_map.mp hb
    by_cases heq : b0.1 = f r
    · rw [if_pos heq] at hmap
      rw [← hmap] at hx
      rcases List.mem_append.mp hx with hx0 | hx1
      · exact hacc b0 hb0 x hx0
      · rw [List.mem_singleton.mp hx1]; exact hr
    · rw [if_neg heq] at hmap
      exact hacc b0 hb0 x (hmap ▸ hx)
  · rw [if_neg hany] at hb
    rcases List.mem_append.mp hb with hb0 | hb1
    · exact hacc b hb0 x hx
    · rw [List.mem_singleton.mp hb1] at hx
      rw [List.mem_singleton.mp hx]
      exact hr

theorem bucketsBy_forall {f : PendingRequest → Nat} {P : PendingRequest → Prop}
    (reqs : List PendingRequest) (hP : ∀ r ∈ reqs, P r) :
    ∀ b ∈ bucketsBy f reqs, ∀ x ∈ b.2, P x := by
  unfold bucketsBy
  suffices hgen : ∀ (l : List PendingRequest) (acc : List (Nat × List PendingRequest)),
      (∀ b ∈ acc, ∀ x ∈ b.2, P x) → (∀ r ∈ l, P r) →
      ∀ b ∈ l.foldl (bucketInsert f) acc, ∀ x ∈ b.2, P x by
    exact hgen reqs [] (by simp) hP
  intro l
  induction l with
  | nil => intro acc hacc _; simpa using hacc
  | cons r rs ih =>
    intro acc hacc hl
    rw [List.foldl_cons]
    exact ih _ (bucketInsert_forall acc r hacc (hl r (by simp)))
      (fun x hx => hl x (by simp [hx]))

theorem bucketChanges_provenance (g : ConflictGroupData) (l : List PendingRequest) :
    ∀ c ∈ bucketChanges g l,
      ∃ r ∈ l, r.desc.mutation_type ≠ AxisMutationType.delete ∧
        c = (r.desc.key, r.desc.value) := by
  intro c hc
  unfold bucketChanges at hc
  dsimp only at hc
  cases hsel : selectWinnerIndex g (sortById l) with
  | none => rw [hsel] at hc; simp at hc
  | some idx =>
    rw [hsel] at hc
    dsimp only at hc
    cases hw : (sortById l)[idx]? with
    | none => rw [hw] at hc; simp at hc
    | some winner =>
      rw [hw] at hc
      dsimp only at hc
      by_cases hdel : winner.desc.mutation_type ≠ AxisMutationType.delete
      · rw [if_pos hdel] at hc
        refine ⟨winner, ?_, hdel, (List.mem_singleton.mp hc)⟩
        exact (List.perm_insertionSort _ l).mem_iff.mp (List.getElem?_mem hw)
      · rw [if_neg hdel] at hc
        simp at hc

theorem resolve_changes_provenance (g : ConflictGroupData) (reqs : List PendingRequest) :
    ∀ c ∈ (ResolveConflictGroup g reqs).resolved_changes,
      ∃ r ∈ reqs, r.desc.mutation_type ≠ AxisMutationType.delete ∧
        c = (r.desc.key, r.desc.value) := by
  intro c hc
  unfold ResolveConflictGroup at hc
  simp only at hc
  obtain ⟨b, hb, hcb⟩ := List.mem_flatMap.mp hc
  obtain ⟨r, hrb, hrdel, hrc⟩ := bucketChanges_provenance g b.2 c hcb
  have hmem : ∀ x ∈ b.2, x ∈ reqs :=
    fun x hx => bucketsBy_forall (P := fun x => x ∈ reqs) reqs (fun y hy => hy) b hb x hx
  exact ⟨r, hmem r hrb, hrdel, hrc⟩

theorem bucketChanges_eq_winner (g : ConflictGroupData) (l : List PendingRequest) :
    bucketChanges g l =
      match bucketWinner g l with
      | none => []
      | some w =>
        if w.desc.mutation_type ≠ AxisMutationType.delete then
          [(w.desc.key, w.desc.value)]
        else [] := by
  unfold bucketChanges bucketWinner
  dsimp only
  cases selectWinnerIndex g (sortById l) with
  | none => rfl
  | some idx => dsimp only

theorem bucketChanges_winner_provenance (g : ConflictGroupData) (l : List PendingRequest) :
    ∀ c ∈ bucketChanges g l,
      ∃ w, bucketWinner g l = some w ∧ w.desc.mutation_type ≠ AxisMutationType.delete ∧
        c = (w.desc.key, w.desc.value) := by
  intro c hc
  rw [bucketChanges_eq_winner] at hc
  cases hw : bucketWinner g l with
  | none => rw [hw] at hc; simp at hc
  | some w =>
    rw [hw] at hc
    dsimp only at hc
    by_cases hdel : w.desc.mutation_type ≠ AxisMutationType.delete
    · rw [if_pos hdel] at hc
      exact ⟨w, rfl, hdel, List.mem_singleton.mp hc⟩
    · rw [if_neg hdel] at hc
      simp at hc

theorem resolve_changes_winner (g : ConflictGroupData) (reqs : List PendingRequest) :
    ∀ c ∈ (ResolveConflictGroup g reqs).resolved_changes,
      ∃ kb ∈ bucketByKey reqs, ∃ w, bucketWinner g kb.2 = some w ∧
        w.desc.mutation_type ≠ AxisMutationType.delete ∧
        c = (w.desc.key, w.desc.value) := by
  intro c hc
  unfold ResolveConflictGroup at hc
  simp only at hc
  obtain ⟨b, hb, hcb⟩ := List.mem_flatMap.mp hc
  obtain ⟨w, hw, hwdel, hwc⟩ := bucketChanges_winner_provenance g b.2 c hcb
  exact ⟨b, hb, w, hw, hwdel, hwc⟩

/-- Propositions of the form "whatever the selected winner is, it
satisfies P" are decidable, so concrete winner hypotheses evaluate. -/
instance decForallOptionSome {α : Type} (o : Option α) (P : α → Prop) [DecidablePred P] :
    Decidable (∀ a, o = some a → P a) :=
  match o with
  | none => isTrue (fun _ h => nomatch h)
  | some x =>
    decidable_of_iff (P x)
      ⟨fun hp a h => by rw [← Option.some.inj h]; exact hp, fun h => h x rfl⟩

/-- Descriptor deleting `(1, 0)` at slot 2, for the C3 scenario. -/
def descDel2 : AxisStateChangeDesc :=
  { target_slot := 2, conflict_group := 0, priority := 0,
    key := { primary := 1, secondary := 0 }, mutation_type := .delete, value := 0 }

/-- The C3 scenario axis: one first-writer group, `Set (1,0) := 42` at
slot 1, `Delete (1,0)` at slot 2, ticked twice. -/
def axisC3 : TimeAxisState :=
  execCmds AxisTimeAxis_DefaultConfig
    [.createGroup .firstWriter, .submit descSet1, .tick, .submit descDel2, .tick]

/-- C3 counterexample: at slot 2 the sole (hence winning) request for key
`(1, 0)` carries `Delete`; its transition records no resolved change, yet
after the commit the key still holds its previous value 42. The commit
phase does not remove deleted keys, refuting the removal half of the
claim. -/
theorem delete_key_not_removed_on_commit :
    (axisC3.pending_transitions.getD 1
        { slot_index := 0, requests := [], resolved_changes := [], resolution_hash := 0 }).requests
      = [{ id := 2, desc := descDel2, cancelled := false }] ∧
    (axisC3.pending_transitions.getD 1
        { slot_index := 0, requests := [], resolved_changes := [], resolution_hash := 0 }).resolved_changes
      = [] ∧
    lookupKey axisC3.current_state (MakeStateKeyHash { primary := 1, secondary := 0 })
      = some 42 := by
  exact ⟨by decide, by decide, by decide⟩

/-- C3 (amended): when every per-key conflict winner selected for the
next slot whose key hashes like `k` carries the `Delete` mutation — in
particular when a `Delete` request wins a mixed same-key bucket under
the group's policy — the tick succeeds, resolution contributes no
output change for `k` in the recorded transition, and the commit phase
leaves `k`'s binding in the working state untouched; the key is not
removed. -/
theorem delete_winner_contributes_no_change (st : TimeAxisState) (k : AxisStateKey)
    (hinit : st.initialized = true) (hactive : ¬ st.lifecycle = .terminated)
    (hdel : ∀ gb ∈ bucketByGroup (collectedFor st), ∀ kb ∈ bucketByKey gb.2,
      ∀ w, bucketWinner (findGroupConfig st.conflict_groups gb.1) kb.2 = some w →
        MakeStateKeyHash w.desc.key = MakeStateKeyHash k →
        w.desc.mutation_type = AxisMutationType.delete) :
    (AxisTimeAxis_Tick st).2 = .ok ∧
    (∀ c ∈ (tickTransition st).resolved_changes, MakeStateKeyHash c.1 ≠ MakeStateKeyHash k) ∧
    lookupKey (AxisTimeAxis_Tick st).1.current_state (MakeStateKeyHash k)
      = lookupKey st.current_state (MakeStateKeyHash k) := by
  have hres : ∀ res ∈ sortByGroupId (tickResults st),
      ∀ c ∈ res.resolved_changes, MakeStateKeyHash c.1 ≠ MakeStateKeyHash k := by
    intro res hres c hc hkh
    have hres' : res ∈ tickResults st :=
      (List.perm_insertionSort _ (tickResults st)).mem_iff.mp hres
    obtain ⟨gb, hgb, hrb⟩ := List.mem_map.mp hres'
    rw [← hrb] at hc
    obtain ⟨kb, hkb, w, hw, hwdel, hwc⟩ := resolve_changes_winner _ gb.2 c hc
    apply hwdel
    apply hdel gb hgb kb hkb w hw
    rw [hwc] at hkh
    exact hkh
  have htick : AxisTimeAxis_Tick st = (tickSuccess st, .ok) := by
    unfold AxisTimeAxis_Tick
    rw [if_neg (by simp [hinit]), if_neg hactive]
  refine ⟨by rw [htick], ?_, ?_⟩
  · intro c hc
    unfold tickTransition at hc
    simp only at hc
    obtain ⟨res, hr, hcr⟩ := List.mem_flatMap.mp hc
    exact hres res hr c hcr
  · rw [htick]
    show lookupKey (tickSuccess st).current_state _ = _
    unfold tickSuccess
    simp only
    exact lookup_commitResults_ne _ _ _ hres

/-- Descriptor deleting `(1, 0)` at slot 1, for the amended C3 witness. -/
def descDel1 : AxisStateChangeDesc :=
  { target_slot := 1, conflict_group := 0, priority := 0,
    key := { primary := 1, secondary := 0 }, mutation_type := .delete, value := 0 }

/-- Descriptor setting `(1, 0) := 99` at slot 1, the losing request of
the mixed bucket in the amended C3 witness. -/
def descSet99 : AxisStateChangeDesc :=
  { target_slot := 1, conflict_group := 0, priority := 0,
    key := { primary := 1, secondary := 0 }, mutation_type := .set, value := 99 }

/-- Axis holding a mixed same-key bucket at slot 1 — a `Delete` with
request id 1 and a `Set 99` with request id 2 — on a working state where
key `(1, 0)` is bound to 5; under the first-writer policy the `Delete`
wins the conflict. -/
def axisC3W : TimeAxisState :=
  { AxisTimeAxis_Create AxisTimeAxis_DefaultConfig with
    conflict_groups := [grpFirstWriter]
    current_state := [(MakeStateKeyHash { primary := 1, secondary := 0 }, 5)]
    pending_requests := [{ id := 1, desc := descDel1, cancelled := false },
                         { id := 2, desc := descSet99, cancelled := false }] }

/-- Witness for the amended C3: the collected bucket is mixed (a `Set`
competes), its winner is the `Delete` with the lowest id, and ticking
`axisC3W` succeeds, contributes no change for the key, and leaves its
binding at 5. -/
theorem delete_winner_contributes_no_change_witness :
    (∃ r ∈ collectedFor axisC3W, r.desc.mutation_type ≠ AxisMutationType.delete) ∧
    ((AxisTimeAxis_Tick axisC3W).2 = .ok ∧
     (∀ c ∈ (tickTransition axisC3W).resolved_changes,
       MakeStateKeyHash c.1 ≠ MakeStateKeyHash { primary := 1, secondary := 0 }) ∧
     lookupKey (AxisTimeAxis_Tick axisC3W).1.current_state
         (MakeStateKeyHash { primary := 1, secondary := 0 })
       = lookupKey axisC3W.current_state
           (MakeStateKeyHash { primary := 1, secondary := 0 })) := by
  refine ⟨by decide, ?_⟩
  exact delete_winner_contributes_no_change axisC3W { primary := 1, secondary := 0 }
    (by decide) (by decide) (by decide)

-- =============================================================================
-- C6: reconstruction range validation
-- =============================================================================

/-- Decidable equality of `Except` results, for concrete evaluations. -/
instance exceptDecEq {ε α : Type} [DecidableEq ε] [DecidableEq α] :
    DecidableEq (Except ε α) := fun x y =>
  match x, y with
  | .ok a, .ok b =>
    if h : a = b then isTrue (by rw [h]) else isFalse (fun hc => h (Except.ok.inj hc))
  | .error e, .error f =>
    if h : e = f then isTrue (by rw [h]) else isFalse (fun hc => h (Except.error.inj hc))
  | .ok _, .error _ => isFalse (fun hc => Except.noConfusion hc)
  | .error _, .ok _ => isFalse (fun hc => Except.noConfusion hc)

/-- A freshly created axis with the default configuration. -/
def axisFresh : TimeAxisState := AxisTimeAxis_Create AxisTimeAxis_DefaultConfig

/-- C6 counterexample: on a fresh axis (current slot 0) a reconstruction
request for the future slot 5 is not rejected with `InvalidParameter` as
claimed: `AxisTimeAxis_ReconstructState` performs no upper-bound check,
replays the (empty) pending transitions past the end, and reports
success with an output. -/
theorem reconstruct_state_accepts_future_slot :
    axisFresh.current_slot < 5 ∧
    AxisTimeAxis_ReconstructState axisFresh 5 = .ok [] := by
  exact ⟨by decide, by decide⟩

/-- C6 (amended): `get_reconstruction_key` validates both bounds (below
the oldest anchor: `SlotInPast`; above the current slot:
`InvalidParameter`), with no key produced; `reconstruct_state` rejects a
slot below the oldest anchor with `ReconstructionFailed` (not
`SlotInPast`) and performs no upper-bound check; `query_state` answers a
slot below every anchor with `AnchorNotFound`. -/
theorem reconstruction_range_validation (st : TimeAxisState) (slot : Nat)
    (key : AxisStateKey) (front : AnchorData) (rest : List AnchorData)
    (hanch : st.anchors = front :: rest) :
    (slot < front.slot_index →
      AxisTimeAxis_GetReconstructionKey st slot = .error .errSlotInPast ∧
      AxisTimeAxis_ReconstructState st slot = .error .errReconstructionFailed) ∧
    (front.slot_index ≤ slot → st.current_slot < slot →
      AxisTimeAxis_GetReconstructionKey st slot = .error .errInvalidParameter) ∧
    ((∀ a ∈ st.anchors, slot < a.slot_index) → slot ≠ st.current_slot →
      AxisTimeAxis_QueryState st slot key = .error .errAnchorNotFound) := by
  refine ⟨?_, ?_, ?_⟩
  · intro hlt
    constructor
    · unfold AxisTimeAxis_GetReconstructionKey
      rw [hanch]
      dsimp only
      rw [if_pos hlt]
    · unfold AxisTimeAxis_ReconstructState
      rw [hanch]
      dsimp only
      rw [if_pos hlt]
  · intro hge hgt
    unfold AxisTimeAxis_GetReconstructionKey
    rw [hanch]
    dsimp only
    rw [if_neg (not_lt.mpr hge), if_pos hgt]
  · intro hall hne
    have hfind : findNearestAnchor st.anchors slot = none := by
      unfold findNearestAnchor
      rw [List.find?_eq_none]
      intro a ha
      simp only [decide_eq_true_eq, not_le]
      exact hall a (List.mem_reverse.mp ha)
    unfold AxisTimeAxis_QueryState
    rw [if_neg hne, if_neg (by rw [hanch]; simp), hfind]

/-- Anchor at slot 1 used by the C6 witness. -/
def anchorW : AnchorData :=
  { anchor_id := 2, slot_index := 1, state_snapshot := [], transition_log := [],
    transition_hash := (0, 0), resolution_hash := (0, 0),
    termination_policy_hash := GetPolicyHash AxisTermination_DefaultConfig }

/-- Axis at slot 2 whose only retained anchor sits at slot 1 (the genesis
anchor has been pruned), for the C6 witness. -/
def axisC6W : TimeAxisState :=
  { AxisTimeAxis_Create AxisTimeAxis_DefaultConfig with
    anchors := [anchorW]
    last_anchor_slot := 1
    current_slot := 2 }

/-- Witness for the amended C6: below the oldest anchor the key request
fails with `SlotInPast` and reconstruction with `ReconstructionFailed`;
above the current slot the key request fails with `InvalidParameter`;
a query below every anchor fails with `AnchorNotFound`. -/
theorem reconstruction_range_validation_witness :
    AxisTimeAxis_GetReconstructionKey axisC6W 0 = .error .errSlotInPast ∧
    AxisTimeAxis_ReconstructState axisC6W 0 = .error .errReconstructionFailed ∧
    AxisTimeAxis_GetReconstructionKey axisC6W 5 = .error .errInvalidParameter ∧
    AxisTimeAxis_QueryState axisC6W 0 { primary := 1, secondary := 0 }
      = .error .errAnchorNotFound := by
  refine ⟨?_, ?_, ?_, ?_⟩
  · exact ((reconstruction_range_validation axisC6W 0 { primary := 1, secondary := 0 }
      anchorW [] rfl).1 (by decide)).1
  · exact ((reconstruction_range_validation axisC6W 0 { primary := 1, secondary := 0 }
      anchorW [] rfl).1 (by decide)).2
  · exact (reconstruction_range_validation axisC6W 5 { primary := 1, secondary := 0 }
      anchorW [] rfl).2.1 (by decide) (by decide)
  · exact (reconstruction_range_validation axisC6W 0 { primary := 1, secondary := 0 }
      anchorW [] rfl).2.2 (by intro a ha; fin_cases ha; decide) (by decide)

-- =============================================================================
-- C4: reconstruction fidelity
-- =============================================================================

/-- Replay of the first `i` recorded transitions from a snapshot. -/
def replayUpTo (snapshot : StateMap) (transitions : List SlotTransition) (i : Nat) : StateMap :=
  (transitions.take i).foldl (fun m t => ApplyTransitionToState t m) snapshot

/-- Invariant tying an axis state to the history of its working states
(entry `s` of `hist` is the working state right after slot `s` was
committed). It pins down the anchor ring's last element, the slot range
covered by the pending transitions, and the fact that replaying any
prefix of them from the last anchor's snapshot reproduces the recorded
history. -/
structure AxisInv (st : TimeAxisState) (hist : List StateMap) : Prop where
  cfg_anchors : 1 ≤ st.config.max_anchors
  cfg_interval : 1 ≤ st.config.anchor_interval
  hist_len : hist.length = st.current_slot + 1
  la_le : st.last_anchor_slot ≤ st.current_slot
  anchors_ne : st.anchors ≠ []
  anchors_le : ∀ a ∈ st.anchors, a.slot_index ≤ st.last_anchor_slot
  last_anchor : ∃ A, st.anchors.getLast? = some A ∧
      A.slot_index = st.last_anchor_slot ∧
      A.termination_policy_hash = st.termination_policy_hash ∧
      A.state_snapshot = hist.getD st.last_anchor_slot []
  trans_slots : st.pending_transitions.map (fun t => t.slot_index)
      = List.range' (st.last_anchor_slot + 1) (st.current_slot - st.last_anchor_slot)
  cur_state : hist.getD st.current_slot [] = st.current_state
  replay : ∀ i ≤ st.pending_transitions.length,
      replayUpTo (hist.getD st.last_anchor_slot []) st.pending_transitions i
        = hist.getD (st.last_anchor_slot + i) []

theorem pruneAnchors_facts (l : List AnchorData) (max_anchors : Nat)
    (hmax : 1 ≤ max_anchors) (hne : l ≠ []) :
    pruneAnchors l max_anchors ≠ [] ∧
    (pruneAnchors l max_anchors).getLast? = l.getLast? ∧
    ∀ a ∈ pruneAnchors l max_anchors, a ∈ l := by
  induction l with
  | nil => exact absurd rfl hne
  | cons a as ih =>
    unfold pruneAnchors
    by_cases hlen : (a :: as).length > max_anchors
    · rw [if_pos hlen]
      have has : as ≠ [] := by
        intro h
        rw [h] at hlen
        simp at hlen
        omega
      obtain ⟨ih1, ih2, ih3⟩ := ih has
      refine ⟨ih1, ?_, fun x hx => List.mem_cons_of_mem a (ih3 x hx)⟩
      rw [ih2]
      cases as with
      | nil => exact absurd rfl has
      | cons b bs => simp [List.getLast?_cons_cons]
    · rw [if_neg hlen]
      exact ⟨by simp, rfl, fun x hx => hx⟩

theorem applyChanges_append (m : StateMap) (l1 l2 : List (AxisStateKey × Nat)) :
    applyChanges m (l1 ++ l2) = applyChanges (applyChanges m l1) l2 := by
  unfold applyChanges
  exact List.foldl_append _ _ l1 l2

theorem commitResults_eq_flatMap (m : StateMap) (results : List GroupResolutionResult) :
    commitResults m results = applyChanges m (results.flatMap (fun r => r.resolved_changes)) := by
  induction results generalizing m with
  | nil => rfl
  | cons r rs ih =>
    unfold commitResults at ih ⊢
    rw [List.foldl_cons, List.flatMap_cons, applyChanges_append, ih]

theorem range'_concat_one (s n : Nat) :
    List.range' s (n + 1) = List.range' s n ++ [s + n] := by
  simpa using @List.range'_concat 1 s n

theorem getD_append_left {α : Type} (l1 l2 : List α) (i : Nat) (d : α) (h : i < l1.length) :
    (l1 ++ l2).getD i d = l1.getD i d :=
  List.getD_append l1 l2 d i h

theorem getD_append_last {α : Type} (l1 : List α) (x : α) (d : α) :
    (l1 ++ [x]).getD l1.length d = x := by
  rw [List.getD_append_right l1 [x] d l1.length (le_refl _)]
  simp

theorem inv_create (config : AxisTimeAxisConfig) :
    AxisInv (AxisTimeAxis_Create config) [[]] := by
  refine ⟨?_, ?_, rfl, Nat.le_refl 0, by simp [AxisTimeAxis_Create], ?_, ?_, rfl, rfl, ?_⟩
  · show 1 ≤ (if config.max_anchors = 0 then 64 else config.max_anchors)
    split <;> omega
  · show 1 ≤ (if config.anchor_interval = 0 then 1024 else config.anchor_interval)
    split <;> omega
  · intro a ha
    simp only [AxisTimeAxis_Create, List.mem_singleton] at ha
    rw [ha]
    exact Nat.le_refl 0
  · exact ⟨_, rfl, rfl, rfl, rfl⟩
  · intro i hi
    have h0 : i = 0 := by
      simp only [AxisTimeAxis_Create, List.length_nil, Nat.le_zero] at hi
      exact hi
    subst h0
    rfl

theorem inv_untouched {st : TimeAxisState} {hist : List StateMap} (hinv : AxisInv st hist)
    (st' : TimeAxisState)
    (hmax : st'.config.max_anchors = st.config.max_anchors)
    (hint : 1 ≤ st'.config.anchor_interval)
    (hslot : st'.current_slot = st.current_slot)
    (hanch : st'.anchors = st.anchors)
    (hla : st'.last_anchor_slot = st.last_anchor_slot)
    (htr : st'.pending_transitions = st.pending_transitions)
    (hcs : st'.current_state = st.current_state)
    (hph : st'.termination_policy_hash = st.termination_policy_hash) :
    AxisInv st' hist := by
  obtain ⟨hca, hci, hlen, hle, hne, hble, ⟨A, hAl, hAs, hAh, hAsnap⟩, hts, hcsi, hrep⟩ := hinv
  refine ⟨by rw [hmax]; exact hca, hint, by rw [hslot]; exact hlen,
    by rw [hslot, hla]; exact hle, by rw [hanch]; exact hne,
    ?_, ⟨A, ?_, ?_, ?_, ?_⟩, by rw [htr, hla, hslot]; exact hts,
    by rw [hslot, hcs]; exact hcsi, ?_⟩
  · intro a ha
    rw [hanch] at ha
    rw [hla]
    exact hble a ha
  · rw [hanch]; exact hAl
  · rw [hla]; exact hAs
  · rw [hph]; exact hAh
  · rw [hla]; exact hAsnap
  · intro i hi
    rw [htr] at hi ⊢
    rw [hla]
    exact hrep i hi

theorem inv_createAnchorNow {st : TimeAxisState} {hist : List StateMap}
    (hinv : AxisInv st hist) :
    AxisInv (AxisTimeAxis_CreateAnchorNow st).1 hist := by
  obtain ⟨hca, hci, hlen, hle, hne, hble, ⟨A, hAl, hAs, hAh, hAsnap⟩, hts, hcsi, hrep⟩ := hinv
  have hpr := pruneAnchors_facts
    (st.anchors ++ [{ anchor_id := st.next_anchor_id
                      slot_index := st.current_slot
                      state_snapshot := st.current_state
                      transition_log := st.pending_transitions.flatMap (fun t => t.requests)
                      transition_hash := ComputeTransitionHash st.pending_transitions
                      resolution_hash := (0, 0)
                      termination_policy_hash := st.termination_policy_hash }])
    st.config.max_anchors hca (by simp)
  refine ⟨hca, hci, hlen, Nat.le_refl _, hpr.1, ?_, ?_,
    by simp [AxisTimeAxis_CreateAnchorNow], hcsi, ?_⟩
  · intro a ha
    rcases List.mem_append.mp (hpr.2.2 a ha) with h0 | h1
    · exact Nat.le_trans (hble a h0) hle
    · rw [List.mem_singleton.mp h1]
      exact Nat.le_refl _
  · refine ⟨{ anchor_id := st.next_anchor_id
              slot_index := st.current_slot
              state_snapshot := st.current_state
              transition_log := st.pending_transitions.flatMap (fun t => t.requests)
              transition_hash := ComputeTransitionHash st.pending_transitions
              resolution_hash := (0, 0)
              termination_policy_hash := st.termination_policy_hash }, ?_, rfl, rfl, ?_⟩
    · exact hpr.2.1.trans (List.getLast?_concat _)
    · exact hcsi.symm
  · intro i hi
    have h0 : i = 0 := Nat.le_zero.mp hi
    subst h0
    rfl

theorem tickSuccess_config (st : TimeAxisState) : (tickSuccess st).config = st.config := rfl

theorem tickSuccess_current_slot (st : TimeAxisState) :
    (tickSuccess st).current_slot = st.current_slot + 1 := rfl

theorem tickSuccess_anchors (st : TimeAxisState) :
    (tickSuccess st).anchors =
      if anchorDue st then pruneAnchors (st.anchors ++ [tickAnchor st]) st.config.max_anchors
      else st.anchors := rfl

theorem tickSuccess_last (st : TimeAxisState) :
    (tickSuccess st).last_anchor_slot =
      if anchorDue st then st.current_slot + 1 else st.last_anchor_slot := rfl

theorem tickSuccess_ptrans (st : TimeAxisState) :
    (tickSuccess st).pending_transitions =
      if anchorDue st then [] else st.pending_transitions ++ [tickTransition st] := rfl

theorem tickSuccess_cstate (st : TimeAxisState) :
    (tickSuccess st).current_state =
      commitResults st.current_state (sortByGroupId (tickResults st)) := rfl

theorem tickSuccess_hash (st : TimeAxisState) :
    (tickSuccess st).termination_policy_hash = st.termination_policy_hash := rfl

theorem inv_tickSuccess {st : TimeAxisState} {hist : List StateMap} (hinv : AxisInv st hist) :
    AxisInv (tickSuccess st) (hist ++ [(tickSuccess st).current_state]) := by
  obtain ⟨hca, hci, hlen, hle, hne, hble, ⟨A, hAl, hAs, hAh, hAsnap⟩, hts, hcsi, hrep⟩ := hinv
  have hlenp : st.pending_transitions.length = st.current_slot - st.last_anchor_slot := by
    have h := congrArg List.length hts
    simpa using h
  have hgetD_lt : ∀ s, s ≤ st.current_slot →
      (hist ++ [(tickSuccess st).current_state]).getD s [] = hist.getD s [] := by
    intro s hs
    exact getD_append_left hist _ s [] (by rw [hlen]; exact Nat.lt_succ_of_le hs)
  have hgetD_top : (hist ++ [(tickSuccess st).current_state]).getD (st.current_slot + 1) []
      = (tickSuccess st).current_state := by
    have h := getD_append_last hist ((tickSuccess st).current_state) []
    rw [hlen] at h
    exact h
  by_cases hdue : anchorDue st
  · have hpr := pruneAnchors_facts (st.anchors ++ [tickAnchor st]) st.config.max_anchors hca
      (by simp)
    refine ⟨?_, ?_, ?_, ?_, ?_, ?_, ?_, ?_, ?_, ?_⟩
    · rw [tickSuccess_config]; exact hca
    · rw [tickSuccess_config]; exact hci
    · rw [tickSuccess_current_slot]; simp [hlen]
    · rw [tickSuccess_last, tickSuccess_current_slot, if_pos hdue]
    · rw [tickSuccess_anchors, if_pos hdue]; exact hpr.1
    · intro a ha
      rw [tickSuccess_anchors, if_pos hdue] at ha
      rw [tickSuccess_last, if_pos hdue]
      rcases List.mem_append.mp (hpr.2.2 a ha) with h0 | h1
      · exact le_trans (hble a h0) (le_trans hle (Nat.le_succ _))
      · rw [List.mem_singleton.mp h1]; exact Nat.le_refl _
    · refine ⟨tickAnchor st, ?_, ?_, ?_, ?_⟩
      · rw [tickSuccess_anchors, if_pos hdue]
        exact hpr.2.1.trans (List.getLast?_concat _)
      · rw [tickSuccess_last, if_pos hdue]; rfl
      · rw [tickSuccess_hash]; rfl
      · rw [tickSuccess_last, if_pos hdue]
        exact hgetD_top.symm
    · rw [tickSuccess_ptrans, if_pos hdue, tickSuccess_last, if_pos hdue,
        tickSuccess_current_slot]
      simp
    · rw [tickSuccess_current_slot]
      exact hgetD_top
    · intro i hi
      rw [tickSuccess_ptrans, if_pos hdue] at hi
      have h0 : i = 0 := by simpa using hi
      subst h0
      rw [tickSuccess_ptrans, if_pos hdue, tickSuccess_last, if_pos hdue]
      rfl
  · refine ⟨?_, ?_, ?_, ?_, ?_, ?_, ?_, ?_, ?_, ?_⟩
    · rw [tickSuccess_config]; exact hca
    · rw [tickSuccess_config]; exact hci
    · rw [tickSuccess_current_slot]; simp [hlen]
    · rw [tickSuccess_last, tickSuccess_current_slot, if_neg hdue]
      exact le_trans hle (Nat.le_succ _)
    · rw [tickSuccess_anchors, if_neg hdue]; exact hne
    · intro a ha
      rw [tickSuccess_anchors, if_neg hdue] at ha
      rw [tickSuccess_last, if_neg hdue]
      exact hble a ha
    · refine ⟨A, ?_, ?_, ?_, ?_⟩
      · rw [tickSuccess_anchors, if_neg hdue]; exact hAl
      · rw [tickSuccess_last, if_neg hdue]; exact hAs
      · rw [tickSuccess_hash]; exact hAh
      · rw [tickSuccess_last, if_neg hdue, hgetD_lt _ hle]; exact hAsnap
    · rw [tickSuccess_ptrans, if_neg hdue, tickSuccess_last, if_neg hdue,
        tickSuccess_current_slot, List.map_append, hts]
      have harith : st.current_slot + 1 - st.last_anchor_slot
          = (st.current_slot - st.last_anchor_slot) + 1 := Nat.succ_sub hle
      rw [harith, range'_concat_one]
      have harith2 : st.last_anchor_slot + 1 + (st.current_slot - st.last_anchor_slot)
          = st.current_slot + 1 := by
        rw [Nat.add_right_comm, Nat.add_sub_cancel' hle]
      rw [harith2]
      rfl
    · rw [tickSuccess_current_slot]
      exact hgetD_top
    · intro i hi
      rw [tickSuccess_ptrans, if_neg hdue] at hi
      rw [tickSuccess_ptrans, if_neg hdue, tickSuccess_last, if_neg hdue]
      simp only [List.length_append, List.length_cons, List.length_nil] at hi
      by_cases hsmall : i ≤ st.pending_transitions.length
      · unfold replayUpTo
        rw [List.take_append_of_le_length hsmall]
        have hbound : st.last_anchor_slot + i ≤ st.current_slot := by
          calc st.last_anchor_slot + i
              ≤ st.last_anchor_slot + st.pending_transitions.length :=
                Nat.add_le_add_left hsmall _
            _ = st.last_anchor_slot + (st.current_slot - st.last_anchor_slot) := by rw [hlenp]
            _ = st.current_slot := Nat.add_sub_cancel' hle
        rw [hgetD_lt _ hle, hgetD_lt _ hbound]
        exact hrep i hsmall
      · have hieq : i = st.pending_transitions.length + 1 :=
          Nat.le_antisymm hi (Nat.succ_le_of_lt (Nat.not_le.mp hsmall))
        subst hieq
        unfold replayUpTo
        rw [List.take_of_length_le (by simp), List.foldl_append]
        have hinner : st.pending_transitions.foldl (fun m t => ApplyTransitionToState t m)
            ((hist ++ [(tickSuccess st).current_state]).getD st.last_anchor_slot [])
            = hist.getD st.current_slot [] := by
          rw [hgetD_lt _ hle]
          have h := hrep st.pending_transitions.length (Nat.le_refl _)
          unfold replayUpTo at h
          rw [List.take_length] at h
          rw [h]
          have hsum : st.last_anchor_slot + st.pending_transitions.length
              = st.current_slot := by
            rw [hlenp]
            exact Nat.add_sub_cancel' hle
          rw [hsum]
        rw [hinner]
        have hfin : (st.last_anchor_slot + (st.pending_transitions.length + 1))
            = st.current_slot + 1 := by
          rw [← Nat.add_assoc, hlenp, Nat.add_sub_cancel' hle]
        rw [hfin, hgetD_top]
        show ApplyTransitionToState (tickTransition st) (hist.getD st.current_slot [])
            = (tickSuccess st).current_state
        rw [hcsi, tickSuccess_cstate]
        unfold ApplyTransitionToState tickTransition
        simp only
        exact (commitResults_eq_flatMap st.current_state (sortByGroupId (tickResults st))).symm

theorem inv_step (sh : TimeAxisState × List StateMap) (c : AxisCmd)
    (hinv : AxisInv sh.1 sh.2) :
    AxisInv (stepCmdHist sh c).1 (stepCmdHist sh c).2 := by
  obtain ⟨st, hist⟩ := sh
  cases c with
  | tick =>
    show AxisInv (AxisTimeAxis_Tick st).1 _
    by_cases hinit : st.initialized
    · by_cases hterm : st.lifecycle = .terminated
      · have h : AxisTimeAxis_Tick st = (st, .errTerminated) := by
          unfold AxisTimeAxis_Tick
          rw [if_neg (by simp [hinit]), if_pos hterm]
        simp only [stepCmdHist, h]
        exact hinv
      · have h : AxisTimeAxis_Tick st = (tickSuccess st, .ok) := by
          unfold AxisTimeAxis_Tick
          rw [if_neg (by simp [hinit]), if_neg hterm]
        simp only [stepCmdHist, h]
        exact inv_tickSuccess hinv
    · have h : AxisTimeAxis_Tick st = (st, .errNotInitialized) := by
        unfold AxisTimeAxis_Tick
        rw [if_pos (by simp [hinit])]
      simp only [stepCmdHist, h]
      exact hinv
  | submit desc =>
    show AxisInv (AxisTimeAxis_SubmitRequest st desc).1 hist
    refine inv_untouched hinv _ ?_ ?_ ?_ ?_ ?_ ?_ ?_ ?_ <;>
      (unfold AxisTimeAxis_SubmitRequest; split_ifs <;>
        first
        | rfl
        | exact hinv.cfg_interval)
  | submitBatch descs =>
    show AxisInv (AxisTimeAxis_SubmitRequestBatch st descs).1 hist
    refine inv_untouched hinv _ ?_ ?_ ?_ ?_ ?_ ?_ ?_ ?_ <;>
      (unfold AxisTimeAxis_SubmitRequestBatch; split_ifs <;>
        first
        | rfl
        | exact hinv.cfg_interval)
  | cancel rid =>
    show AxisInv (AxisTimeAxis_CancelRequest st rid).1 hist
    refine inv_untouched hinv _ ?_ ?_ ?_ ?_ ?_ ?_ ?_ ?_ <;>
      (unfold AxisTimeAxis_CancelRequest; split_ifs <;>
        first
        | rfl
        | exact hinv.cfg_interval)
  | createGroup policy =>
    show AxisInv (AxisTimeAxis_CreateConflictGroup st policy).1 hist
    refine inv_untouched hinv _ ?_ ?_ ?_ ?_ ?_ ?_ ?_ ?_ <;>
      (unfold AxisTimeAxis_CreateConflictGroup; split_ifs <;>
        first
        | rfl
        | exact hinv.cfg_interval)
  | createGroupCustom fn =>
    show AxisInv (AxisTimeAxis_CreateConflictGroupCustom st fn).1 hist
    refine inv_untouched hinv _ ?_ ?_ ?_ ?_ ?_ ?_ ?_ ?_ <;>
      (unfold AxisTimeAxis_CreateConflictGroupCustom; cases fn <;> (try split_ifs) <;>
        first
        | rfl
        | exact hinv.cfg_interval)
  | destroyGroup gid =>
    show AxisInv (AxisTimeAxis_DestroyConflictGroup st gid).1 hist
    refine inv_untouched hinv _ ?_ ?_ ?_ ?_ ?_ ?_ ?_ ?_ <;>
      (unfold AxisTimeAxis_DestroyConflictGroup; split_ifs <;>
        first
        | rfl
        | exact hinv.cfg_interval)
  | setSignal flag =>
    show AxisInv (AxisTimeAxis_SetExternalSignal st flag) hist
    exact inv_untouched hinv _ rfl hinv.cfg_interval rfl rfl rfl rfl rfl rfl
  | clearSignal flag =>
    show AxisInv (AxisTimeAxis_ClearExternalSignal st flag) hist
    exact inv_untouched hinv _ rfl hinv.cfg_interval rfl rfl rfl rfl rfl rfl
  | createAnchorNow =>
    show AxisInv (AxisTimeAxis_CreateAnchorNow st).1 hist
    exact inv_createAnchorNow hinv
  | setAnchorInterval interval =>
    show AxisInv (AxisTimeAxis_SetAnchorInterval st interval).1 hist
    unfold AxisTimeAxis_SetAnchorInterval
    by_cases hz : interval = 0
    · rw [if_pos hz]
      exact hinv
    · rw [if_neg hz]
      exact inv_untouched hinv _ rfl (Nat.one_le_iff_ne_zero.mpr hz) rfl rfl rfl rfl rfl rfl

theorem inv_execCmdsHist (config : AxisTimeAxisConfig) (cmds : List AxisCmd) :
    AxisInv (execCmdsHist config cmds).1 (execCmdsHist config cmds).2 := by
  unfold execCmdsHist
  suffices hgen : ∀ (l : List AxisCmd) (sh : TimeAxisState × List StateMap),
      AxisInv sh.1 sh.2 → AxisInv (l.foldl stepCmdHist sh).1 (l.foldl stepCmdHist sh).2 by
    exact hgen cmds (AxisTimeAxis_Create config, [[]]) (inv_create config)
  intro l
  induction l with
  | nil => intro sh h; exact h
  | cons c cs ih =>
    intro sh h
    rw [List.foldl_cons]
    exact ih _ (inv_step sh c h)

theorem findNearestAnchor_last (anchors : List AnchorData) (A : AnchorData) (s : Nat)
    (hlast : anchors.getLast? = some A) (hle : A.slot_index ≤ s) :
    findNearestAnchor anchors s = some A := by
  unfold findNearestAnchor
  have h1 : anchors.reverse.head? = some A := by
    rw [← List.getLast?_eq_head?_reverse]
    exact hlast
  cases hrev : anchors.reverse with
  | nil => rw [hrev] at h1; simp at h1
  | cons b bs =>
    rw [hrev] at h1
    have hbA : b = A := by simpa using h1
    rw [List.find?_cons_of_pos bs (by simp [hbA, hle]), hbA]

theorem filter_window_eq_take (l : List SlotTransition) (b lo s : Nat)
    (hslots : l.map (fun t => t.slot_index) = List.range' b l.length)
    (hlo : lo < b) :
    l.filter (fun t => lo < t.slot_index ∧ t.slot_index ≤ s) = l.take (s + 1 - b) := by
  induction l generalizing b with
  | nil => simp
  | cons t ts ih =>
    rw [List.map_cons, List.length_cons, List.range'_succ b ts.length 1] at hslots
    have ht : t.slot_index = b := (List.cons.injEq _ _ _ _ ▸ hslots).1
    have hts2 : ts.map (fun t => t.slot_index) = List.range' (b + 1) ts.length :=
      (List.cons.injEq _ _ _ _ ▸ hslots).2
    have hlo2 : lo < b + 1 := Nat.lt_succ_of_lt hlo
    by_cases hbs : b ≤ s
    · rw [List.filter_cons_of_pos (by simp [ht, hlo, hbs])]
      have htk : s + 1 - b = (s + 1 - (b + 1)) + 1 := by
        rw [Nat.sub_succ]
        exact (Nat.succ_pred_eq_of_pos (by omega)).symm
      rw [htk, List.take_succ_cons, ih b.succ hts2 hlo2]
    · rw [List.filter_cons_of_neg (by simp [ht]; omega)]
      have h0 : s + 1 - b = 0 := by omega
      rw [h0, ih b.succ hts2 hlo2]
      have h0' : s + 1 - (b + 1) = 0 := by omega
      rw [h0']
      rfl

/-- C4 (amended): for every reachable axis state and every slot `s`
between the most recent anchor and the current slot, reconstruction
yields exactly the working state the axis held right after the tick that
committed slot `s`. (For slots strictly between two older anchors the
pending transitions have been absorbed and cleared, and replay returns
the preceding anchor's snapshot instead — see the counterexample.) -/
theorem reconstruction_matches_history (config : AxisTimeAxisConfig) (cmds : List AxisCmd)
    (s : Nat)
    (h1 : (execCmdsHist config cmds).1.last_anchor_slot ≤ s)
    (h2 : s ≤ (execCmdsHist config cmds).1.current_slot) :
    AxisTimeAxis_ReconstructState (execCmdsHist config cmds).1 s
      = .ok ((execCmdsHist config cmds).2.getD s []) := by
  obtain ⟨hca, hci, hlen, hle, hne, hble, ⟨A, hAl, hAs, hAh, hAsnap⟩, hts, hcsi, hrep⟩ :=
    inv_execCmdsHist config cmds
  have hlenp : (execCmdsHist config cmds).1.pending_transitions.length
      = (execCmdsHist config cmds).1.current_slot
        - (execCmdsHist config cmds).1.last_anchor_slot := by
    have h := congrArg List.length hts
    simpa using h
  cases hanch : (execCmdsHist config cmds).1.anchors with
  | nil => exact absurd hanch hne
  | cons front rest =>
    have hfront : front.slot_index ≤ (execCmdsHist config cmds).1.last_anchor_slot :=
      hble front (by rw [hanch]; simp)
    have hfind : findNearestAnchor ((execCmdsHist config cmds).1.anchors) s = some A :=
      findNearestAnchor_last _ A s hAl (by rw [hAs]; exact h1)
    rw [hanch] at hfind
    have hfilter : (execCmdsHist config cmds).1.pending_transitions.filter
        (fun t => A.slot_index < t.slot_index ∧ t.slot_index ≤ s)
        = (execCmdsHist config cmds).1.pending_transitions.take
            (s + 1 - ((execCmdsHist config cmds).1.last_anchor_slot + 1)) := by
      apply filter_window_eq_take
      · rw [hlenp]; exact hts
      · rw [hAs]; exact Nat.lt_succ_self _
    unfold AxisTimeAxis_ReconstructState
    rw [hanch]
    dsimp only
    rw [if_neg (not_lt.mpr (le_trans hfront h1)), hfind]
    dsimp only
    rw [if_neg (by rw [hAh]; simp)]
    rw [hfilter]
    unfold ReplayTransitionsToSlot
    rw [List.takeWhile_eq_self_iff.mpr ?hall]
    case hall =>
      intro t hmem
      rw [← hfilter] at hmem
      have hc := (List.mem_filter.mp hmem).2
      simp only [decide_eq_true_eq] at hc
      simpa using hc.2
    rw [hAsnap]
    have hsub : s + 1 - ((execCmdsHist config cmds).1.last_anchor_slot + 1)
        = s - (execCmdsHist config cmds).1.last_anchor_slot := by
      rw [Nat.succ_sub_succ]
    rw [hsub]
    have hwithin : s - (execCmdsHist config cmds).1.last_anchor_slot
        ≤ (execCmdsHist config cmds).1.pending_transitions.length := by
      rw [hlenp]
      exact Nat.sub_le_sub_right h2 _
    have h := hrep (s - (execCmdsHist config cmds).1.last_anchor_slot) hwithin
    unfold replayUpTo at h
    rw [h, Nat.add_sub_cancel' h1]

/-- Config with an anchor every 2 slots, for the C4 scenario. -/
def cfgAnchor2 : AxisTimeAxisConfig :=
  { AxisTimeAxis_DefaultConfig with anchor_interval := 2 }

/-- The C4 scenario: one first-writer group, `Set (1,0) := 42` at slot 1,
two ticks (the second creates an anchor at slot 2, absorbing and
clearing the pending transitions). -/
def cmdsC4 : List AxisCmd :=
  [.createGroup .firstWriter, .submit descSet1, .tick, .tick]

/-- C4 counterexample: slot 1 lies between the genesis anchor (slot 0)
and the slot-2 anchor, inside `[oldest_anchor.slot, current_slot]`. The
historical working state at slot 1 bound the key hash 1 to 42, but
reconstruction returns the empty genesis snapshot: the slot-1 transition
was absorbed into the slot-2 anchor and cleared from the pending buffer,
and replay only consults the pending buffer. -/
theorem reconstruction_diverges_between_old_anchors :
    AxisTimeAxis_GetOldestReconstructibleSlot (execCmdsHist cfgAnchor2 cmdsC4).1 ≤ 1 ∧
    1 ≤ (execCmdsHist cfgAnchor2 cmdsC4).1.current_slot ∧
    (execCmdsHist cfgAnchor2 cmdsC4).2.getD 1 [] = [(1, 42)] ∧
    AxisTimeAxis_ReconstructState (execCmdsHist cfgAnchor2 cmdsC4).1 1 = .ok [] := by
  exact ⟨by decide, by decide, by decide, by decide⟩

/-- Witness for the amended C4: in the same scenario, slot 2 (the most
recent anchor slot, equal to the current slot) reconstructs to exactly
the recorded historical state. -/
theorem reconstruction_matches_history_witness :
    (execCmdsHist cfgAnchor2 cmdsC4).1.last_anchor_slot ≤ 2 ∧
    2 ≤ (execCmdsHist cfgAnchor2 cmdsC4).1.current_slot ∧
    AxisTimeAxis_ReconstructState (execCmdsHist cfgAnchor2 cmdsC4).1 2
      = .ok ((execCmdsHist cfgAnchor2 cmdsC4).2.getD 2 []) := by
  exact ⟨by decide, by decide,
    reconstruction_matches_history cfgAnchor2 cmdsC4 2 (by decide) (by decide)⟩

end AxisTime
